import Mathlib

/-!
Verification development for `DiffDA/inference_data_assimilation_gc.py`.

The script drives an autoregressive data-assimilation loop: it alternates a
pretrained weather forecaster ("graphcast") with a diffusion "repaint"
correction, maintaining a rolling state of the two most recent predicted and
corrected fields, and emitting per-step RMSE diagnostics.

The embedding below models an `xarray.Dataset` as an association list from
variable name to a gridded field (flattened to a list of rational values).
The two pretrained networks, the per-step forcing generator, the dataset
loader and the normalization statistics are external collaborators; they are
modelled as opaquely given functions collected in an `Env` record.  The
orchestration loop `autoregressive_assimilation` is translated statement by
statement from the source; every externally observable action of a step
(forecaster invocation, repaint invocation, disabling of the dataset's
interpolation output, metric emission) is recorded as an `Event` so that the
claims about calls and emissions can be stated over the run's trace.
-/

namespace DiffDA

/-- Variable names of xarray datasets. -/
abbrev Var := String

/-- A gridded physical field, flattened to a list of values; the physical
floats are idealized as integers so that field arithmetic is exactly
computable. -/
abbrev Field := List ℤ

/-- An xarray `Dataset`: an association list from data-variable name to its
field. -/
abbrev Dataset := List (Var × Field)

/-- The data-variable names of a dataset (`ds.data_vars`). -/
def varsOf (d : Dataset) : List Var := d.map Prod.fst

/-- Membership test for a data variable (`v in ds.data_vars`). -/
def hasVar (d : Dataset) (v : Var) : Bool := d.any (fun p => p.1 == v)

/-- `ds.drop_vars(names)`: remove the named variables. -/
def dropVars (names : List Var) (d : Dataset) : Dataset :=
  d.filter (fun p => !(names.contains p.1))

/-- Selecting a single variable, as in `ds["name"]`. -/
def selectVar (d : Dataset) (v : Var) : Dataset := d.filter (fun p => p.1 == v)

/-- `xarray.merge([a, b])` for datasets with disjoint variable sets. -/
def mergeDS (a b : Dataset) : Dataset := a ++ b

/-- Look up the field stored for a variable name. -/
def lookupVar (d : Dataset) (v : Var) : Option Field :=
  (d.find? (fun p => p.1 == v)).map Prod.snd

/-- Dataset subtraction `a - b`: xarray aligns the two datasets on their
common data variables and subtracts pointwise. -/
def subDS (a b : Dataset) : Dataset :=
  a.filterMap (fun p =>
    (lookupVar b p.1).map (fun w => (p.1, p.2.zipWith (fun x y => x - y) w)))

/-- `xarray.concat([a, b], dim="time")`: variables are aligned by name and
their fields are concatenated along the time axis. -/
def concatTime (a b : Dataset) : Dataset :=
  a.map (fun p => (p.1, p.2 ++ ((lookupVar b p.1).getD []))) ++
    b.filter (fun p => !(hasVar a p.1))

/-- Per-variable normalization: `normalization.normalize` rescales each
variable with its own statistics and keeps the variable set unchanged. -/
def normDS (f : Var → Field → Field) (d : Dataset) : Dataset :=
  d.map (fun p => (p.1, f p.1 p.2))

/-- The precipitation variable that is resolution-conditional. -/
def tpVar : Var := "total_precipitation_6hr"

/-- The 2m-temperature surface variable, used in concrete witnesses. -/
def t2mVar : Var := "2m_temperature"

/-- The solar-radiation variable dropped before diffing with ground truth. -/
def toaVar : Var := "toa_incident_solar_radiation"

/-- The datetime coordinate dropped right after loading a batch. -/
def datetimeVar : Var := "datetime"

/-- `PRESSURE_LEVEL_VARS` from the source. -/
def PRESSURE_LEVEL_VARS : List Var :=
  ["temperature", "geopotential", "u_component_of_wind",
   "v_component_of_wind", "vertical_velocity", "specific_humidity"]

/-- `SURFACE_LEVEL_VARS` from the source. -/
def SURFACE_LEVEL_VARS : List Var :=
  ["2m_temperature", "mean_sea_level_pressure", "10m_v_component_of_wind",
   "10m_u_component_of_wind", "total_precipitation_6hr"]

/-- `SURFACE_LEVEL_VARS_NO_TP` from the source. -/
def SURFACE_LEVEL_VARS_NO_TP : List Var :=
  ["2m_temperature", "mean_sea_level_pressure", "10m_v_component_of_wind",
   "10m_u_component_of_wind"]

/-- Sum of squares of a field; `calculate_stat_rmse` computes
`sqrt(mean(diff * diff))` over the horizontal grid, i.e. the square root of
this quantity divided by the cell count (the division and square root are
taken over `ℝ` in the statements). -/
def sumsq (f : Field) : ℤ := (f.map (fun x => x * x)).sum

/-- `calculate_stat_rmse`, up to the final mean and square root: for each
tabulated variable, the sum of the squared diff together with the number of
grid cells.  The source drops the precipitation column when the diff does
not carry it. -/
def calculate_stat_rmse_sq (diff : Dataset) : List (Var × ℤ × ℕ) :=
  let surface_vars :=
    if hasVar diff tpVar then SURFACE_LEVEL_VARS else SURFACE_LEVEL_VARS_NO_TP
  (PRESSURE_LEVEL_VARS ++ surface_vars).map
    (fun v => (v, sumsq ((lookupVar diff v).getD []),
      ((lookupVar diff v).getD []).length))

/-- A jax PRNG key, modelled as the seed together with all folded-in data. -/
abbrev RngKey := List Nat

/-- `jax.random.PRNGKey`. -/
def PRNGKey (seed : Nat) : RngKey := [seed]

/-- `jax.random.fold_in`: deterministically derive a new key from a key and
an integer. -/
def foldIn (k : RngKey) (data : Nat) : RngKey := k ++ [data]

/-- One batch of the validation dataset, as indexed by `validate_dataset[i]`. -/
structure Batch where
  weatherbench : Dataset
  graphcast : Dataset
  static : Dataset
  mask : Dataset
  weatherbenchInterp : Dataset

/-- The external collaborators of the loop: the dataset loader, the forcing
generator, the normalization statistics, and the two pretrained networks.
All are stateless functions of their inputs, matching the source's use of
pure `hk.transform_with_state` wrappers applied with `state={}, rng=None`. -/
structure Env where
  batch : Nat → Batch
  forcings : Nat → Dataset
  forcingsPred : Nat → Dataset
  normO : Var → Field → Field
  normD : Var → Field → Field
  graphcast : Dataset → Dataset → Dataset → Dataset → Dataset
  repaint : Dataset → Dataset → Dataset → Dataset → Dataset → RngKey → Dataset

/-- The CLI arguments that the loop reads. -/
structure Args where
  init_data : String
  resolution : String
  num_autoregressive_steps : Nat
  random_seed : Nat

/-- The orchestrator's rolling state across loop iterations; every component
is a Python local initialized to `None` before the loop. -/
structure LoopState where
  corrected_pred : Option Dataset
  corrected_pred_prev : Option Dataset
  inputs_pred : Option Dataset
  inputs_pred_prev : Option Dataset
  inputs_pred_full : Option Dataset
  inputs_pred_prev_full : Option Dataset
  targets_template : Option Dataset
deriving DecidableEq

/-- All rolling-state pointers start out as `None`. -/
def initState : LoopState :=
  ⟨none, none, none, none, none, none, none⟩

/-- Fatal errors of a step: the `ValueError` on an unknown `init_data`, and
use of a still-`None` (or unbound) Python local. -/
inductive Err where
  | valueError (message : String)
  | noneError
deriving DecidableEq

/-- The externally observable actions of one loop iteration. -/
inductive Event where
  | forecasterCall (inputs norm_static norm_forcings targets_template : Dataset)
  | repaintCall (repaint_mask norm_measurements_diff_interp norm_inputs_pred
      norm_forcings norm_static : Dataset) (rng_batch : RngKey)
  | disableInterp
  | emitMetrics (diff_gc : Dataset)
deriving DecidableEq

/-- Ground truth for step `t`: `batch['weatherbench'].drop_vars("datetime")`. -/
def groundTruthOf (env : Env) (t : Nat) : Dataset :=
  dropVars [datetimeVar] (env.batch t).weatherbench

/-- `toa = inputs_ground_truth["toa_incident_solar_radiation"]`. -/
def toaOf (env : Env) (t : Nat) : Dataset :=
  selectVar (groundTruthOf env t) toaVar

/-- `norm_forcings = xarray.merge([forcings, norm_toa])`. -/
def normForcingsOf (env : Env) (t : Nat) : Dataset :=
  mergeDS (env.forcings t) (normDS env.normO (toaOf env t))

/-- `norm_forcings_prediction = xarray.merge([forcings_prediction, norm_toa])`,
computed before `forcings_prediction` is re-bound. -/
def normForcingsPredictionOf (env : Env) (t : Nat) : Dataset :=
  mergeDS (env.forcingsPred t) (normDS env.normO (toaOf env t))

/-- `forcings_prediction = xarray.merge([forcings_prediction, toa])`. -/
def forcingsPredictionOf (env : Env) (t : Nat) : Dataset :=
  mergeDS (env.forcingsPred t) (toaOf env t)

/-- `norm_static = norm_original_fn(inputs_static)`. -/
def normStaticOf (env : Env) (t : Nat) : Dataset :=
  normDS env.normO (env.batch t).static

/-- The repeated source pattern
`if tp in d.data_vars and args.resolution == "0.25deg": d = d.drop_vars(tp)`. -/
def dropTPifHighRes (args : Args) (d : Dataset) : Dataset :=
  if hasVar d tpVar ∧ args.resolution = "0.25deg" then dropVars [tpVar] d else d

/-- `norm_inputs_pred`, with the conditional precipitation drop applied. -/
def normInputsPredOf (env : Env) (args : Args) (ip : Dataset) : Dataset :=
  dropTPifHighRes args (normDS env.normO ip)

/-- `norm_measurements_diff_interp = norm_diff_fn(measurements_interp -
inputs_pred)`, with `measurements_interp` stripped of its datetime and solar
variables first. -/
def normMeasurementsDiffOf (env : Env) (t : Nat) (ip : Dataset) : Dataset :=
  normDS env.normD
    (subDS (dropVars [datetimeVar, toaVar] (env.batch t).weatherbenchInterp) ip)

/-- `inputs_pred = batch['graphcast'].drop_vars("datetime")`, the prediction
seed loaded on bootstrap steps only. -/
def ipOf (env : Env) (t : Nat) : Dataset :=
  dropVars [datetimeVar] (env.batch t).graphcast

/-- A bootstrap iteration (`batch_idx <= 1`, lines 69–127): load the
prediction seed, obtain a corrected prognostic state from repaint or from
ground truth, merge it with forcings (dropping precipitation at high
resolution), and — unless this is the very first step — invoke the
forecaster on the two corrected states and emit the corrected-vs-truth
diff. -/
def bootstrapStep (env : Env) (args : Args) (rng : RngKey) (t : Nat)
    (s : LoopState) : Except Err (LoopState × List Event) :=
  let rng_batch := foldIn rng t
  let inputs_pred := ipOf env t
  let prognosticE : Except Err (Dataset × List Event) :=
    if args.init_data = "repaint" then
      .ok (env.repaint (env.batch t).mask (normMeasurementsDiffOf env t inputs_pred)
             (normInputsPredOf env args inputs_pred) (normForcingsOf env t)
             (normStaticOf env t) rng_batch,
           [Event.repaintCall (env.batch t).mask
              (normMeasurementsDiffOf env t inputs_pred)
              (normInputsPredOf env args inputs_pred) (normForcingsOf env t)
              (normStaticOf env t) rng_batch])
    else if args.init_data = "era5" then
      .ok (dropVars [toaVar] (groundTruthOf env t), [])
    else
      .error (Err.valueError args.init_data)
  match prognosticE with
  | .error e => .error e
  | .ok pe =>
    let corrected_pred_prognoistic := pe.1
    let corrected_pred :=
      dropTPifHighRes args
        (mergeDS corrected_pred_prognoistic (forcingsPredictionOf env t))
    match s.corrected_pred with
    | none =>
      .ok ({ s with
              inputs_pred_prev := s.inputs_pred
              inputs_pred := some inputs_pred
              corrected_pred_prev := none
              corrected_pred := some corrected_pred }, pe.2)
    | some cpp =>
      let graphcast_inputs := concatTime cpp corrected_pred
      let targets_template := dropVars [toaVar] (groundTruthOf env t)
      let inputs_pred_prev_full :=
        dropTPifHighRes args (mergeDS inputs_pred (forcingsPredictionOf env t))
      let newPred := env.graphcast graphcast_inputs (normStaticOf env t)
        (normForcingsPredictionOf env t) targets_template
      let diff_gc :=
        subDS corrected_pred_prognoistic (dropVars [toaVar] (groundTruthOf env t))
      .ok ({ corrected_pred := some corrected_pred
             corrected_pred_prev := some cpp
             inputs_pred := some newPred
             inputs_pred_prev := some inputs_pred
             inputs_pred_full := s.inputs_pred_full
             inputs_pred_prev_full := some inputs_pred_prev_full
             targets_template := some targets_template },
           pe.2 ++ [Event.forecasterCall graphcast_inputs (normStaticOf env t)
                      (normForcingsPredictionOf env t) targets_template,
                    Event.emitMetrics diff_gc])

/-- A steady-state iteration (`batch_idx >= 2`, lines 129–148): disable the
dataset's interpolation output at index 2, merge the current prediction with
forcings, concatenate with the previous full state along time, invoke the
forecaster, roll the pointers, and emit the previous-prediction-vs-truth
diff. -/
def steadyStep (env : Env) (args : Args) (_rng : RngKey) (t : Nat)
    (s : LoopState) : Except Err (LoopState × List Event) :=
  match s.inputs_pred, s.inputs_pred_prev_full, s.targets_template with
  | some inputs_pred, some inputs_pred_prev_full, some targets_template =>
    let evs0 := if t = 2 then [Event.disableInterp] else []
    let inputs_pred_full :=
      dropTPifHighRes args (mergeDS inputs_pred (forcingsPredictionOf env t))
    let graphcast_inputs := concatTime inputs_pred_prev_full inputs_pred_full
    let newPred := env.graphcast graphcast_inputs (normStaticOf env t)
      (normForcingsPredictionOf env t) targets_template
    let diff_gc := subDS inputs_pred (dropVars [toaVar] (groundTruthOf env t))
    .ok ({ corrected_pred := s.corrected_pred
           corrected_pred_prev := s.corrected_pred_prev
           inputs_pred := some newPred
           inputs_pred_prev := some inputs_pred
           inputs_pred_full := some inputs_pred_full
           inputs_pred_prev_full := some inputs_pred_full
           targets_template := some targets_template },
         evs0 ++ [Event.forecasterCall graphcast_inputs (normStaticOf env t)
                    (normForcingsPredictionOf env t) targets_template,
                  Event.emitMetrics diff_gc])
  | _, _, _ => .error Err.noneError

/-- One iteration of the loop body, dispatching on the step index. -/
def stepBody (env : Env) (args : Args) (rng : RngKey) (t : Nat)
    (s : LoopState) : Except Err (LoopState × List Event) :=
  if t ≤ 1 then bootstrapStep env args rng t s else steadyStep env args rng t s

/-- The outcome of a run: the final rolling state (or the fatal error), with
the per-step event trace accumulated so far. -/
inductive RunResult where
  | ok (s : LoopState) (trace : List (Nat × List Event))
  | err (e : Err) (trace : List (Nat × List Event))
deriving DecidableEq

/-- The per-step event trace of a run result. -/
def traceOf : RunResult → List (Nat × List Event)
  | .ok _ tr => tr
  | .err _ tr => tr

/-- Execute `n` loop iterations starting at step index `t`. -/
def runFrom (env : Env) (args : Args) (rng : RngKey) :
    Nat → Nat → LoopState → RunResult
  | _, 0, s => .ok s []
  | t, n + 1, s =>
    match stepBody env args rng t s with
    | .error e => .err e []
    | .ok se =>
      match runFrom env args rng (t + 1) n se.1 with
      | .ok sf tr => .ok sf ((t, se.2) :: tr)
      | .err e tr => .err e ((t, se.2) :: tr)

/-- `autoregressive_assimilation`: run the loop for
`num_autoregressive_steps` iterations from the all-`None` rolling state,
with the per-step PRNG keys folded in from the single run seed. -/
def autoregressive_assimilation (env : Env) (args : Args) : RunResult :=
  runFrom env args (PRNGKey args.random_seed) 0
    args.num_autoregressive_steps initState

/-- The rolling state after the first `n` iterations (`none` if some earlier
iteration raised). -/
def runStates (env : Env) (args : Args) : Nat → Option LoopState
  | 0 => some initState
  | n + 1 =>
    (runStates env args n).bind (fun s =>
      ((stepBody env args (PRNGKey args.random_seed) n s).toOption).map Prod.fst)

/-- The events of a single step, empty if the step raised. -/
def stepEventsOf (env : Env) (args : Args) (rng : RngKey) (t : Nat)
    (s : LoopState) : List Event :=
  ((stepBody env args rng t s).toOption.map Prod.snd).getD []

/-- The post-step rolling state, defaulting to the pre-step state if the
step raised. -/
def stepStateOf (env : Env) (args : Args) (rng : RngKey) (t : Nat)
    (s : LoopState) : LoopState :=
  ((stepBody env args rng t s).toOption.map Prod.fst).getD s

/-- Whether a single step completes without raising. -/
def isOkStep (env : Env) (args : Args) (rng : RngKey) (t : Nat)
    (s : LoopState) : Bool :=
  (stepBody env args rng t s).toOption.isSome

/-- The events the run emitted at step index `t`. -/
def eventsAtStep (env : Env) (args : Args) (t : Nat) : List Event :=
  (((traceOf (autoregressive_assimilation env args)).find?
      (fun p => p.1 == t)).map Prod.snd).getD []

/-- Number of forecaster invocations among a step's events. -/
def countForecasterCalls (evs : List Event) : Nat :=
  evs.countP (fun e => match e with
    | Event.forecasterCall _ _ _ _ => true
    | _ => false)

/-- Number of repaint invocations among a step's events. -/
def countRepaintCalls (evs : List Event) : Nat :=
  evs.countP (fun e => match e with
    | Event.repaintCall _ _ _ _ _ _ => true
    | _ => false)

/-- Number of metric emissions among a step's events. -/
def countMetricEmissions (evs : List Event) : Nat :=
  evs.countP (fun e => match e with
    | Event.emitMetrics _ => true
    | _ => false)

/-- Number of `_disable_interpolation` calls among a step's events. -/
def countDisableCalls (evs : List Event) : Nat :=
  evs.countP (fun e => match e with
    | Event.disableInterp => true
    | _ => false)

/-- Total number of `_disable_interpolation` calls across a run's trace. -/
def countDisable (tr : List (Nat × List Event)) : Nat :=
  (tr.map (fun p => countDisableCalls p.2)).sum

/-- The flags registered on the `ArgumentParser` in `__main__`
(lines 176–196), each without its leading `--`. -/
def cliFlags : List String :=
  ["wandb_name", "num_autoregressive_steps", "validation_year", "init_data",
   "graphcast_pred_path", "weatherbench2_path", "resolution", "stats_path",
   "graphcast_checkpoint_path", "diffusion_checkpoint_directory",
   "ddpm_beta_schedule", "num_repaint_inference_timesteps", "rapaint_eta",
   "repaint_jump_length", "repaint_jump_n_sample", "mask_blur_kernel_size",
   "repaint_num_sparse_samples", "random_seed", "use_wandb",
   "fixed_measurements", "dataset_time_offset"]

/-- The flag whose parsed value `repaint_fn` passes on as the `repaint_eta`
argument of `repaint_forward` (line 244: `repaint_eta = args.rapaint_eta`). -/
def etaFlagWiredToRepaint : String := "rapaint_eta"

/-- The spec sentence of C1 as a predicate on a run's trace: precipitation
appears in no tensor passed into the forecaster — neither in the
concatenated input states nor in the `targets_template` argument. -/
def noTPForecasterTensors (tr : List (Nat × List Event)) : Bool :=
  tr.all (fun p => p.2.all (fun e => match e with
    | Event.forecasterCall i _ _ tt => !(hasVar i tpVar) && !(hasVar tt tpVar)
    | _ => true))

/-- The spec sentence of C2 as a predicate on a run: after every executed
step, both pairs of rolling-state pointers have been rotated forward. -/
def rotationOK (env : Env) (args : Args) : Bool :=
  (List.range args.num_autoregressive_steps).all (fun k =>
    match runStates env args k, runStates env args (k + 1) with
    | some s, some s2 =>
      decide (s2.inputs_pred_prev = s.inputs_pred ∧
        s2.corrected_pred_prev = s.corrected_pred)
    | _, _ => true)

/-- The spec sentence of C6 as a predicate on a run: the dataset's
interpolation output is disabled exactly once across the whole run. -/
def disabledExactlyOnce (env : Env) (args : Args) : Bool :=
  countDisable (traceOf (autoregressive_assimilation env args)) == 1

/-- A tiny concrete validation dataset used to run the embedded loop on
explicit inputs: the ground truth carries a 2m-temperature field whose
value is the step index (so consecutive corrected states differ), plus
precipitation and solar radiation. -/
def exBatch (t : Nat) : Batch :=
  { weatherbench :=
      [("2m_temperature", [(t : ℤ)]), (tpVar, [0]), (toaVar, [0])]
    graphcast := [("2m_temperature", [0]), (tpVar, [0])]
    static := []
    mask := []
    weatherbenchInterp := [("2m_temperature", [0]), (toaVar, [0])] }

/-- A concrete environment over `exBatch`: identity normalization, a
forecaster that produces exactly the variables its template asks for, and a
repaint function returning a state with the predicted state's variables. -/
def exEnv : Env :=
  { batch := exBatch
    forcings := fun _ => []
    forcingsPred := fun _ => []
    normO := fun _ f => f
    normD := fun _ f => f
    graphcast := fun _ _ _ tt => tt
    repaint := fun _ _ p _ _ _ => p }

/-- Concrete arguments: `era5` bootstrap at 1 degree, three steps. -/
def era5Args3 : Args :=
  { init_data := "era5", resolution := "1deg"
    num_autoregressive_steps := 3, random_seed := 42 }

/-- Concrete arguments: `era5` bootstrap at 1 degree, two steps. -/
def era5Args2 : Args :=
  { init_data := "era5", resolution := "1deg"
    num_autoregressive_steps := 2, random_seed := 42 }

/-- Concrete arguments: `era5` bootstrap at 0.25 degree, two steps. -/
def era5Args025 : Args :=
  { init_data := "era5", resolution := "0.25deg"
    num_autoregressive_steps := 2, random_seed := 42 }

/-- Concrete arguments: an unrecognized `init_data` value. -/
def bogusArgs : Args :=
  { init_data := "bogus", resolution := "1deg"
    num_autoregressive_steps := 1, random_seed := 42 }

/-- The `targets_template` built at a bootstrap step: the step's ground
truth with the solar-radiation variable dropped (line 113). -/
def templateOf (env : Env) (t : Nat) : Dataset :=
  dropVars [toaVar] (groundTruthOf env t)

/-- The corrected full state assembled at an `era5` bootstrap step. -/
def era5CorrectedOf (env : Env) (args : Args) (t : Nat) : Dataset :=
  dropTPifHighRes args
    (mergeDS (dropVars [toaVar] (groundTruthOf env t)) (forcingsPredictionOf env t))

/-- The output of the repaint invocation at a `repaint` bootstrap step. -/
def repaintOutOf (env : Env) (args : Args) (rng : RngKey) (t : Nat) : Dataset :=
  env.repaint (env.batch t).mask (normMeasurementsDiffOf env t (ipOf env t))
    (normInputsPredOf env args (ipOf env t)) (normForcingsOf env t)
    (normStaticOf env t) (foldIn rng t)

/-- The corrected full state assembled at a `repaint` bootstrap step. -/
def repaintCorrectedOf (env : Env) (args : Args) (rng : RngKey) (t : Nat) :
    Dataset :=
  dropTPifHighRes args
    (mergeDS (repaintOutOf env args rng t) (forcingsPredictionOf env t))

/-- The repaint-call event recorded at a `repaint` bootstrap step. -/
def repaintEvOf (env : Env) (args : Args) (rng : RngKey) (t : Nat) : Event :=
  Event.repaintCall (env.batch t).mask (normMeasurementsDiffOf env t (ipOf env t))
    (normInputsPredOf env args (ipOf env t)) (normForcingsOf env t)
    (normStaticOf env t) (foldIn rng t)

/-- `inputs_pred_prev_full` as assembled at a non-first bootstrap step. -/
def bootFullOf (env : Env) (args : Args) (t : Nat) : Dataset :=
  dropTPifHighRes args (mergeDS (ipOf env t) (forcingsPredictionOf env t))

/-- `inputs_pred_full` as assembled at a steady-state step from the current
prediction. -/
def steadyFullOf (env : Env) (args : Args) (t : Nat) (ip : Dataset) : Dataset :=
  dropTPifHighRes args (mergeDS ip (forcingsPredictionOf env t))

/-! Concrete rolling states used to exercise single steps. -/

/-- A concrete rolling state as found at the start of a steady-state step. -/
def exSteadyState : LoopState :=
  { corrected_pred := some [(tpVar, [7])]
    corrected_pred_prev := some [(tpVar, [8])]
    inputs_pred := some [(tpVar, [1])]
    inputs_pred_prev := none
    inputs_pred_full := none
    inputs_pred_prev_full := some [(tpVar, [2])]
    targets_template := some [(tpVar, [3])] }

/-- A concrete rolling state as found at the start of bootstrap step 1. -/
def exBootState : LoopState :=
  { corrected_pred := some [(tpVar, [5])]
    corrected_pred_prev := none
    inputs_pred := some [(tpVar, [6])]
    inputs_pred_prev := none
    inputs_pred_full := none
    inputs_pred_prev_full := none
    targets_template := none }

/-- Concrete arguments: `repaint` bootstrap at 1 degree, two steps. -/
def repaintArgs2 : Args :=
  { init_data := "repaint", resolution := "1deg"
    num_autoregressive_steps := 2, random_seed := 7 }

/-- The well-formedness of the rolling state at the start of step `t`:
after step 0 a corrected state exists, and from step 2 on the prediction,
its full variant and the template are all populated. -/
def loopInv (t : Nat) (s : LoopState) : Prop :=
  (t = 1 → ∃ c, s.corrected_pred = some c) ∧
  (2 ≤ t → ∃ ip ippf tt, s.inputs_pred = some ip ∧
    s.inputs_pred_prev_full = some ippf ∧ s.targets_template = some tt)

/-- At high resolution, no dataset stored in `corrected_pred` or
`inputs_pred_prev_full` carries precipitation. -/
def inv025 (s : LoopState) : Prop :=
  (∀ d, s.corrected_pred = some d → hasVar d tpVar = false) ∧
  (∀ d, s.inputs_pred_prev_full = some d → hasVar d tpVar = false)

/-- At 1-degree resolution, every dataset the loop stores carries
precipitation, given that the source batches do. -/
def inv1 (s : LoopState) : Prop :=
  (∀ d, s.corrected_pred = some d → hasVar d tpVar = true) ∧
  (∀ d, s.inputs_pred = some d → hasVar d tpVar = true) ∧
  (∀ d, s.inputs_pred_prev_full = some d → hasVar d tpVar = true) ∧
  (∀ d, s.targets_template = some d → hasVar d tpVar = true)


/-! Basic lemmas about the dataset operations. -/

lemma hasVar_true_iff (d : Dataset) (v : Var) :
    hasVar d v = true ↔ ∃ p ∈ d, p.1 = v := by
  simp [hasVar, List.any_eq_true]

lemma hasVar_false_iff (d : Dataset) (v : Var) :
    hasVar d v = false ↔ ∀ p ∈ d, p.1 ≠ v := by
  rw [← Bool.not_eq_true, hasVar_true_iff]
  push_neg
  exact Iff.rfl

lemma contains_false_iff (ns : List Var) (v : Var) :
    ns.contains v = false ↔ v ∉ ns := by
  rw [← Bool.not_eq_true]
  exact not_congr List.elem_iff

lemma varsOf_normDS (f : Var → Field → Field) (d : Dataset) :
    varsOf (normDS f d) = varsOf d := by
  simp [varsOf, normDS, List.map_map]

lemma hasVar_congr {a b : Dataset} (h : varsOf a = varsOf b) (v : Var) :
    hasVar a v = hasVar b v := by
  have ha : ∀ c : Dataset, (hasVar c v = true ↔ v ∈ varsOf c) := by
    intro c
    rw [hasVar_true_iff]
    simp [varsOf, List.mem_map]
  rw [Bool.eq_iff_iff, ha, ha, h]

lemma hasVar_normDS (f : Var → Field → Field) (d : Dataset) (v : Var) :
    hasVar (normDS f d) v = hasVar d v :=
  hasVar_congr (varsOf_normDS f d) v

lemma hasVar_mergeDS (a b : Dataset) (v : Var) :
    hasVar (mergeDS a b) v = (hasVar a v || hasVar b v) := by
  simp [mergeDS, hasVar, List.any_append]

lemma hasVar_dropVars_true_iff (ns : List Var) (d : Dataset) (v : Var) :
    hasVar (dropVars ns d) v = true ↔ hasVar d v = true ∧ v ∉ ns := by
  rw [hasVar_true_iff, hasVar_true_iff]
  constructor
  · rintro ⟨p, hp, rfl⟩
    rw [dropVars, List.mem_filter, Bool.not_eq_true'] at hp
    exact ⟨⟨p, hp.1, rfl⟩, (contains_false_iff ns p.1).mp hp.2⟩
  · rintro ⟨⟨p, hp, rfl⟩, hv⟩
    refine ⟨p, ?_, rfl⟩
    rw [dropVars, List.mem_filter, Bool.not_eq_true']
    exact ⟨hp, (contains_false_iff ns p.1).mpr hv⟩

lemma hasVar_concatTime_true_iff (a b : Dataset) (v : Var) :
    hasVar (concatTime a b) v = true ↔
      (hasVar a v = true ∨ hasVar b v = true) := by
  constructor
  · intro h
    rw [hasVar_true_iff] at h
    obtain ⟨p, hp, rfl⟩ := h
    rcases List.mem_append.mp hp with hL | hR
    · obtain ⟨q, hq, he⟩ := List.mem_map.mp hL
      left
      rw [hasVar_true_iff]
      refine ⟨q, hq, ?_⟩
      rw [← he]
    · right
      rw [hasVar_true_iff]
      exact ⟨p, (List.mem_filter.mp hR).1, rfl⟩
  · intro h
    rw [hasVar_true_iff]
    by_cases ha : hasVar a v = true
    · obtain ⟨p, hp, hpv⟩ := (hasVar_true_iff a v).mp ha
      exact ⟨(p.1, p.2 ++ ((lookupVar b p.1).getD [])),
        List.mem_append.mpr (Or.inl (List.mem_map.mpr ⟨p, hp, rfl⟩)), hpv⟩
    · rcases h with h | h
      · exact absurd h ha
      · obtain ⟨p, hp, hpv⟩ := (hasVar_true_iff b v).mp h
        refine ⟨p, List.mem_append.mpr (Or.inr (List.mem_filter.mpr ⟨hp, ?_⟩)), hpv⟩
        have hfalse : hasVar a p.1 = false := by
          rw [hpv]
          simpa using ha
        simp [hfalse]

lemma hasVar_concatTime_false {a b : Dataset} {v : Var}
    (ha : hasVar a v = false) (hb : hasVar b v = false) :
    hasVar (concatTime a b) v = false := by
  rw [← Bool.not_eq_true, hasVar_concatTime_true_iff]
  simp [ha, hb]

lemma hasVar_mergeDS_false {a b : Dataset} {v : Var}
    (ha : hasVar a v = false) (hb : hasVar b v = false) :
    hasVar (mergeDS a b) v = false := by
  rw [hasVar_mergeDS, ha, hb]
  rfl

lemma hasVar_dropTPifHighRes_of_highRes (args : Args) (d : Dataset)
    (h : args.resolution = "0.25deg") :
    hasVar (dropTPifHighRes args d) tpVar = false := by
  unfold dropTPifHighRes
  by_cases hd : hasVar d tpVar = true
  · rw [if_pos ⟨hd, h⟩, ← Bool.not_eq_true, hasVar_dropVars_true_iff]
    simp
  · rw [if_neg (by simp [hd])]
    simpa using hd

lemma dropTPifHighRes_of_lowRes (args : Args) (d : Dataset)
    (h : args.resolution = "1deg") : dropTPifHighRes args d = d := by
  unfold dropTPifHighRes
  rw [if_neg]
  rintro ⟨-, h2⟩
  rw [h] at h2
  exact absurd h2 (by decide)

/-! Lemmas about dataset subtraction and the RMSE statistic. -/

lemma varsOf_dropVars_nodup {ns : List Var} {d : Dataset}
    (h : (varsOf d).Nodup) : (varsOf (dropVars ns d)).Nodup := by
  have hsub : (varsOf (dropVars ns d)).Sublist (varsOf d) := by
    unfold varsOf dropVars
    exact (List.filter_sublist d).map Prod.fst
  exact hsub.nodup h

lemma lookupVar_of_mem_nodup {d : Dataset} {p : Var × Field}
    (hnd : (varsOf d).Nodup) (hp : p ∈ d) : lookupVar d p.1 = some p.2 := by
  induction d with
  | nil => cases hp
  | cons q d ih =>
    rw [varsOf, List.map_cons, List.nodup_cons] at hnd
    rw [List.mem_cons] at hp
    rcases hp with rfl | hp
    · simp [lookupVar]
    · have hne : ¬(q.1 == p.1) = true := by
        simp only [beq_iff_eq]
        intro he
        exact hnd.1 (he ▸ List.mem_map.mpr ⟨p, hp, rfl⟩)
      unfold lookupVar
      rw [List.find?_cons_of_neg]
      · exact ih hnd.2 hp
      · exact hne

lemma zipWith_sub_self (l : List ℤ) :
    ∀ x ∈ List.zipWith (fun x y => x - y) l l, x = 0 := by
  induction l with
  | nil => intro x hx; cases hx
  | cons a l ih =>
    intro x hx
    rw [List.zipWith_cons_cons, List.mem_cons] at hx
    rcases hx with rfl | hx
    · exact sub_self a
    · exact ih x hx

lemma subDS_self_zero {a : Dataset} (hnd : (varsOf a).Nodup) :
    ∀ p ∈ subDS a a, ∀ x ∈ p.2, x = 0 := by
  intro p hp
  rw [subDS, List.mem_filterMap] at hp
  obtain ⟨q, hq, heq⟩ := hp
  rw [lookupVar_of_mem_nodup hnd hq] at heq
  simp only [Option.map_some', Option.some.injEq] at heq
  subst heq
  exact zipWith_sub_self q.2

lemma sumsq_of_zero {f : Field} (h : ∀ x ∈ f, x = 0) : sumsq f = 0 := by
  unfold sumsq
  rw [List.sum_eq_zero]
  intro y hy
  rw [List.mem_map] at hy
  obtain ⟨x, hx, rfl⟩ := hy
  rw [h x hx]
  ring

lemma sumsq_nil : sumsq [] = 0 := rfl

lemma lookupVar_mem {d : Dataset} {v : Var} {f : Field}
    (h : lookupVar d v = some f) : ∃ p ∈ d, p.1 = v ∧ p.2 = f := by
  unfold lookupVar at h
  cases hf : d.find? (fun p => p.1 == v) with
  | none => rw [hf] at h; cases h
  | some p =>
    rw [hf] at h
    simp only [Option.map_some', Option.some.injEq] at h
    have hmem := List.mem_of_find?_eq_some hf
    have hpred := List.find?_some hf
    simp only [beq_iff_eq] at hpred
    exact ⟨p, hmem, hpred, h⟩

lemma calculate_stat_rmse_sq_zero {d : Dataset}
    (hz : ∀ p ∈ d, ∀ x ∈ p.2, x = 0) :
    ∀ q ∈ calculate_stat_rmse_sq d, q.2.1 = 0 := by
  intro q hq
  unfold calculate_stat_rmse_sq at hq
  rw [List.mem_map] at hq
  obtain ⟨v, -, rfl⟩ := hq
  cases hl : lookupVar d v with
  | none => simp [hl, sumsq_nil]
  | some f =>
    obtain ⟨p, hp, -, hpf⟩ := lookupVar_mem hl
    simp only [hl, Option.getD_some]
    exact sumsq_of_zero (hpf ▸ hz p hp)

/-! Infrastructure for reasoning about runs. -/

lemma runFrom_succ (env : Env) (args : Args) (rng : RngKey) (t n : Nat)
    (s : LoopState) :
    runFrom env args rng t (n + 1) s =
      match stepBody env args rng t s with
      | .error e => .err e []
      | .ok se =>
        match runFrom env args rng (t + 1) n se.1 with
        | .ok sf tr => .ok sf ((t, se.2) :: tr)
        | .err e tr => .err e ((t, se.2) :: tr) := by
  rfl

lemma runFrom_err {env : Env} {args : Args} {rng : RngKey} {t n : Nat}
    {s : LoopState} {e : Err} (h : stepBody env args rng t s = .error e) :
    runFrom env args rng t (n + 1) s = .err e [] := by
  rw [runFrom_succ, h]

lemma runFrom_succ_ok {env : Env} {args : Args} {rng : RngKey} {t n : Nat}
    {s s' : LoopState} {evs : List Event}
    (h : stepBody env args rng t s = .ok (s', evs)) :
    runFrom env args rng t (n + 1) s =
      match runFrom env args rng (t + 1) n s' with
      | .ok sf tr => .ok sf ((t, evs) :: tr)
      | .err e tr => .err e ((t, evs) :: tr) := by
  rw [runFrom_succ, h]

lemma runFrom_ok_step {env : Env} {args : Args} {rng : RngKey} {t n : Nat}
    {s s' : LoopState} {evs : List Event}
    (h : stepBody env args rng t s = .ok (s', evs)) :
    traceOf (runFrom env args rng t (n + 1) s) =
      (t, evs) :: traceOf (runFrom env args rng (t + 1) n s') := by
  rw [runFrom_succ_ok h]
  cases hr : runFrom env args rng (t + 1) n s' <;> rfl

lemma stepBody_boot {env : Env} {args : Args} {rng : RngKey} {t : Nat}
    {s : LoopState} (ht : t ≤ 1) :
    stepBody env args rng t s = bootstrapStep env args rng t s := by
  rw [stepBody, if_pos ht]

lemma stepBody_steady {env : Env} {args : Args} {rng : RngKey} {t : Nat}
    {s : LoopState} (ht : ¬t ≤ 1) :
    stepBody env args rng t s = steadyStep env args rng t s := by
  rw [stepBody, if_neg ht]

lemma bootstrapStep_era5_none {env : Env} {args : Args} {rng : RngKey}
    {t : Nat} {s : LoopState} (h : args.init_data = "era5")
    (hc : s.corrected_pred = none) :
    bootstrapStep env args rng t s =
      .ok ({ s with
              inputs_pred_prev := s.inputs_pred
              inputs_pred := some (ipOf env t)
              corrected_pred_prev := none
              corrected_pred := some (era5CorrectedOf env args t) }, []) := by
  unfold bootstrapStep
  simp only [h, String.reduceEq, reduceIte, ite_true, ite_false]
  simp only [hc, era5CorrectedOf]

lemma bootstrapStep_era5_some {env : Env} {args : Args} {rng : RngKey}
    {t : Nat} {s : LoopState} {cpp : Dataset} (h : args.init_data = "era5")
    (hc : s.corrected_pred = some cpp) :
    bootstrapStep env args rng t s =
      .ok ({ corrected_pred := some (era5CorrectedOf env args t)
             corrected_pred_prev := some cpp
             inputs_pred := some (env.graphcast
               (concatTime cpp (era5CorrectedOf env args t))
               (normStaticOf env t) (normForcingsPredictionOf env t)
               (templateOf env t))
             inputs_pred_prev := some (ipOf env t)
             inputs_pred_full := s.inputs_pred_full
             inputs_pred_prev_full := some (bootFullOf env args t)
             targets_template := some (templateOf env t) },
           [Event.forecasterCall (concatTime cpp (era5CorrectedOf env args t))
              (normStaticOf env t) (normForcingsPredictionOf env t)
              (templateOf env t),
            Event.emitMetrics (subDS (dropVars [toaVar] (groundTruthOf env t))
              (dropVars [toaVar] (groundTruthOf env t)))]) := by
  unfold bootstrapStep
  simp only [h, String.reduceEq, reduceIte, ite_true, ite_false]
  simp only [hc, era5CorrectedOf, templateOf, bootFullOf, List.nil_append]

lemma bootstrapStep_repaint_none {env : Env} {args : Args} {rng : RngKey}
    {t : Nat} {s : LoopState} (h : args.init_data = "repaint")
    (hc : s.corrected_pred = none) :
    bootstrapStep env args rng t s =
      .ok ({ s with
              inputs_pred_prev := s.inputs_pred
              inputs_pred := some (ipOf env t)
              corrected_pred_prev := none
              corrected_pred := some (repaintCorrectedOf env args rng t) },
           [repaintEvOf env args rng t]) := by
  unfold bootstrapStep
  simp only [h, String.reduceEq, reduceIte, ite_true, ite_false]
  simp only [hc, repaintCorrectedOf, repaintOutOf, repaintEvOf]

lemma bootstrapStep_repaint_some {env : Env} {args : Args} {rng : RngKey}
    {t : Nat} {s : LoopState} {cpp : Dataset} (h : args.init_data = "repaint")
    (hc : s.corrected_pred = some cpp) :
    bootstrapStep env args rng t s =
      .ok ({ corrected_pred := some (repaintCorrectedOf env args rng t)
             corrected_pred_prev := some cpp
             inputs_pred := some (env.graphcast
               (concatTime cpp (repaintCorrectedOf env args rng t))
               (normStaticOf env t) (normForcingsPredictionOf env t)
               (templateOf env t))
             inputs_pred_prev := some (ipOf env t)
             inputs_pred_full := s.inputs_pred_full
             inputs_pred_prev_full := some (bootFullOf env args t)
             targets_template := some (templateOf env t) },
           [repaintEvOf env args rng t,
            Event.forecasterCall (concatTime cpp (repaintCorrectedOf env args rng t))
              (normStaticOf env t) (normForcingsPredictionOf env t)
              (templateOf env t),
            Event.emitMetrics (subDS (repaintOutOf env args rng t)
              (dropVars [toaVar] (groundTruthOf env t)))]) := by
  unfold bootstrapStep
  simp only [h, String.reduceEq, reduceIte, ite_true, ite_false]
  simp only [hc, repaintCorrectedOf, repaintOutOf, repaintEvOf, templateOf,
    bootFullOf, List.cons_append, List.nil_append]

lemma bootstrapStep_invalid {env : Env} {args : Args} {rng : RngKey}
    {t : Nat} {s : LoopState} (h1 : args.init_data ≠ "repaint")
    (h2 : args.init_data ≠ "era5") :
    bootstrapStep env args rng t s = .error (Err.valueError args.init_data) := by
  simp only [bootstrapStep]
  rw [if_neg h1, if_neg h2]

lemma steadyStep_ok {env : Env} {args : Args} {rng : RngKey} {t : Nat}
    {s : LoopState} {ip ippf tt : Dataset} (hip : s.inputs_pred = some ip)
    (hf : s.inputs_pred_prev_full = some ippf)
    (ht : s.targets_template = some tt) :
    steadyStep env args rng t s =
      .ok ({ corrected_pred := s.corrected_pred
             corrected_pred_prev := s.corrected_pred_prev
             inputs_pred := some (env.graphcast
               (concatTime ippf (steadyFullOf env args t ip))
               (normStaticOf env t) (normForcingsPredictionOf env t) tt)
             inputs_pred_prev := some ip
             inputs_pred_full := some (steadyFullOf env args t ip)
             inputs_pred_prev_full := some (steadyFullOf env args t ip)
             targets_template := some tt },
           (if t = 2 then [Event.disableInterp] else []) ++
             [Event.forecasterCall (concatTime ippf (steadyFullOf env args t ip))
                (normStaticOf env t) (normForcingsPredictionOf env t) tt,
              Event.emitMetrics (subDS ip
                (dropVars [toaVar] (groundTruthOf env t)))]) := by
  unfold steadyStep
  rw [hip, hf, ht]
  simp only [steadyFullOf]

lemma steadyStep_err_of_none_ip {env : Env} {args : Args} {rng : RngKey}
    {t : Nat} {s : LoopState} (hip : s.inputs_pred = none) :
    steadyStep env args rng t s = .error Err.noneError := by
  unfold steadyStep
  rw [hip]

/-- Lift a per-step property of the emitted events, guarded by a
time-indexed state invariant, to the whole trace of a run segment. -/
lemma runFrom_inv_entries (env : Env) (args : Args) (rng : RngKey)
    (Inv : Nat → LoopState → Prop) (P : Nat → List Event → Prop)
    (hstep : ∀ t s s' evs, Inv t s →
      stepBody env args rng t s = .ok (s', evs) → Inv (t + 1) s' ∧ P t evs) :
    ∀ n t s, Inv t s →
      ∀ p ∈ traceOf (runFrom env args rng t n s), P p.1 p.2 := by
  intro n
  induction n with
  | zero =>
    intro t s _ p hp
    simp [runFrom, traceOf] at hp
  | succ n ih =>
    intro t s hInv p hp
    cases hstep' : stepBody env args rng t s with
    | error e =>
      rw [runFrom_err hstep'] at hp
      cases hp
    | ok se =>
      obtain ⟨hInv', hP⟩ := hstep t s se.1 se.2 hInv (by rw [hstep'])
      have hstep2 : stepBody env args rng t s = .ok (se.1, se.2) := by
        rw [hstep']
      rw [runFrom_ok_step hstep2] at hp
      rw [List.mem_cons] at hp
      rcases hp with hp | hp
      · rw [hp]
        exact hP
      · exact ih (t + 1) se.1 hInv' p hp

/-! The claims. -/

/-- C7: if `init_data` is neither `"repaint"` nor `"era5"`, the run aborts
with the `ValueError` at the first bootstrap step, with an empty trace — in
particular before any forecaster or repaint invocation has occurred. -/
theorem C7_unknown_init_data_aborts (env : Env) (args : Args)
    (h1 : args.init_data ≠ "repaint") (h2 : args.init_data ≠ "era5")
    (hn : 1 ≤ args.num_autoregressive_steps) :
    autoregressive_assimilation env args =
      RunResult.err (Err.valueError args.init_data) [] ∧
    ∀ p ∈ traceOf (autoregressive_assimilation env args),
      countForecasterCalls p.2 = 0 ∧ countRepaintCalls p.2 = 0 := by
  rcases he : args.num_autoregressive_steps with _ | n
  · rw [he] at hn
    exact absurd hn (by omega)
  · have hstep : stepBody env args (PRNGKey args.random_seed) 0 initState =
        .error (Err.valueError args.init_data) := by
      rw [stepBody_boot (by omega), bootstrapStep_invalid h1 h2]
    have hrun : autoregressive_assimilation env args =
        RunResult.err (Err.valueError args.init_data) [] := by
      unfold autoregressive_assimilation
      rw [he, runFrom_err hstep]
    refine ⟨hrun, ?_⟩
    intro p hp
    rw [hrun] at hp
    simp [traceOf] at hp

/-- C7 witness: the `"bogus"` configuration on the concrete environment. -/
theorem C7_unknown_init_data_aborts_witness :
    (bogusArgs.init_data ≠ "repaint" ∧ bogusArgs.init_data ≠ "era5" ∧
      1 ≤ bogusArgs.num_autoregressive_steps) ∧
    autoregressive_assimilation exEnv bogusArgs =
      RunResult.err (Err.valueError bogusArgs.init_data) [] :=
  ⟨⟨by decide, by decide, by decide⟩,
   (C7_unknown_init_data_aborts exEnv bogusArgs (by decide) (by decide)
     (by decide)).1⟩

/-- C9: the command line does not accept a flag named `repaint_eta`; the
registered flag is the misspelled `rapaint_eta`, and it is this flag's value
that is wired into the `repaint_eta` parameter of the repaint reverse
diffusion. -/
theorem C9_repaint_eta_flag_misspelled :
    ¬("repaint_eta" ∈ cliFlags) ∧ "rapaint_eta" ∈ cliFlags ∧
      etaFlagWiredToRepaint = "rapaint_eta" :=
  ⟨by decide, by decide, rfl⟩

lemma steadyStep_parts {env : Env} {args : Args} {rng : RngKey} {t : Nat}
    {s : LoopState}
    (h : (steadyStep env args rng t s).toOption.isSome = true) :
    ∃ ip ippf tt, s.inputs_pred = some ip ∧
      s.inputs_pred_prev_full = some ippf ∧ s.targets_template = some tt := by
  rcases hip : s.inputs_pred with _ | ip <;>
    rcases hf : s.inputs_pred_prev_full with _ | ippf <;>
    rcases htt : s.targets_template with _ | tt <;>
    (try exact ⟨ip, ippf, tt, rfl, rfl, rfl⟩) <;>
    (unfold steadyStep at h; rw [hip, hf, htt] at h; simp [Except.toOption] at h)

/-- C2 (amended): only the `inputs_pred` pair is rotated at steady-state
steps — for `t ≥ 2` a completed step satisfies
`inputs_pred_prev(t+1) = inputs_pred(t)` while the `corrected_pred` pair is
left entirely unchanged; the `corrected_pred` pair is rotated only at
bootstrap steps (`t ≤ 1`), where `corrected_pred_prev(t+1) =
corrected_pred(t)`. -/
theorem C2_pointer_rotation_amended (env : Env) (args : Args) (rng : RngKey)
    (t : Nat) (s : LoopState) (h : isOkStep env args rng t s = true) :
    (2 ≤ t →
      (stepStateOf env args rng t s).inputs_pred_prev = s.inputs_pred ∧
      (stepStateOf env args rng t s).corrected_pred = s.corrected_pred ∧
      (stepStateOf env args rng t s).corrected_pred_prev =
        s.corrected_pred_prev) ∧
    (t ≤ 1 →
      (stepStateOf env args rng t s).corrected_pred_prev = s.corrected_pred) := by
  by_cases ht : t ≤ 1
  · refine ⟨fun h2 => absurd h2 (by omega), fun _ => ?_⟩
    by_cases h5 : args.init_data = "repaint"
    · cases hc : s.corrected_pred with
      | none =>
        simp [stepStateOf, stepBody_boot ht, bootstrapStep_repaint_none h5 hc, hc, Except.toOption]
      | some cpp =>
        simp [stepStateOf, stepBody_boot ht, bootstrapStep_repaint_some h5 hc, hc, Except.toOption]
    · by_cases h6 : args.init_data = "era5"
      · cases hc : s.corrected_pred with
        | none =>
          simp [stepStateOf, stepBody_boot ht, bootstrapStep_era5_none h6 hc, hc, Except.toOption]
        | some cpp =>
          simp [stepStateOf, stepBody_boot ht, bootstrapStep_era5_some h6 hc, hc, Except.toOption]
      · rw [isOkStep, stepBody_boot ht, bootstrapStep_invalid h5 h6] at h
        simp [Except.toOption] at h
  · refine ⟨fun _ => ?_, fun h1 => absurd h1 ht⟩
    rw [isOkStep, stepBody_steady ht] at h
    obtain ⟨ip, ippf, tt, hip, hf, htt⟩ := steadyStep_parts h
    rw [stepStateOf, stepBody_steady ht, steadyStep_ok hip hf htt]
    simp [hip, Except.toOption]

/-- C2 witness: a concrete completed steady-state step rotates the
prediction pointer and leaves the corrected pair untouched. -/
theorem C2_pointer_rotation_amended_witness :
    isOkStep exEnv era5Args3 (PRNGKey 42) 2 exSteadyState = true ∧
    (stepStateOf exEnv era5Args3 (PRNGKey 42) 2 exSteadyState).inputs_pred_prev =
      exSteadyState.inputs_pred ∧
    (stepStateOf exEnv era5Args3 (PRNGKey 42) 2 exSteadyState).corrected_pred =
      exSteadyState.corrected_pred ∧
    (stepStateOf exEnv era5Args3 (PRNGKey 42) 2 exSteadyState).corrected_pred_prev =
      exSteadyState.corrected_pred_prev :=
  ⟨by decide,
   ((C2_pointer_rotation_amended exEnv era5Args3 (PRNGKey 42) 2 exSteadyState
      (by decide)).1 (by decide)).1,
   ((C2_pointer_rotation_amended exEnv era5Args3 (PRNGKey 42) 2 exSteadyState
      (by decide)).1 (by decide)).2.1,
   ((C2_pointer_rotation_amended exEnv era5Args3 (PRNGKey 42) 2 exSteadyState
      (by decide)).1 (by decide)).2.2⟩

/-- C2 counterexample: on a concrete three-step `era5` run the claimed
rotation invariant fails — after steady-state step 2 the `corrected_pred`
pair has not been rotated. -/
theorem C2_pointer_rotation_counterexample :
    rotationOK exEnv era5Args3 = false := by
  decide

/-- C5: at a steady-state step (`t ≥ 2`) the orchestrator invokes the
forecaster on the time-concatenation of the previous full state and the
current full state, stores the forecaster output as the next prediction,
and emits as error field the pre-call prediction (without forcing
variables) minus the ground truth (solar radiation dropped). -/
theorem C5_steady_step_forecast_and_diff (env : Env) (args : Args)
    (rng : RngKey) (t : Nat) (s : LoopState) (ip ippf tt : Dataset)
    (ht : 2 ≤ t) (hip : s.inputs_pred = some ip)
    (hf : s.inputs_pred_prev_full = some ippf)
    (htt : s.targets_template = some tt) :
    Event.forecasterCall (concatTime ippf (steadyFullOf env args t ip))
        (normStaticOf env t) (normForcingsPredictionOf env t) tt
      ∈ stepEventsOf env args rng t s ∧
    (stepStateOf env args rng t s).inputs_pred =
      some (env.graphcast (concatTime ippf (steadyFullOf env args t ip))
        (normStaticOf env t) (normForcingsPredictionOf env t) tt) ∧
    Event.emitMetrics (subDS ip (dropVars [toaVar] (groundTruthOf env t)))
      ∈ stepEventsOf env args rng t s := by
  have hd : stepBody env args rng t s = steadyStep env args rng t s :=
    stepBody_steady (by omega)
  rw [stepEventsOf, stepStateOf, hd, steadyStep_ok hip hf htt]
  refine ⟨?_, by simp [Except.toOption], ?_⟩ <;>
    simp [List.mem_append, Except.toOption]

/-- C5 witness: the concrete steady-state step at index 2. -/
theorem C5_steady_step_forecast_and_diff_witness :
    (2 ≤ 2 ∧ exSteadyState.inputs_pred = some [(tpVar, [1])] ∧
      exSteadyState.inputs_pred_prev_full = some [(tpVar, [2])] ∧
      exSteadyState.targets_template = some [(tpVar, [3])]) ∧
    (Event.forecasterCall
        (concatTime [(tpVar, [2])] (steadyFullOf exEnv era5Args3 2 [(tpVar, [1])]))
        (normStaticOf exEnv 2) (normForcingsPredictionOf exEnv 2) [(tpVar, [3])]
      ∈ stepEventsOf exEnv era5Args3 (PRNGKey 42) 2 exSteadyState ∧
    (stepStateOf exEnv era5Args3 (PRNGKey 42) 2 exSteadyState).inputs_pred =
      some (exEnv.graphcast
        (concatTime [(tpVar, [2])] (steadyFullOf exEnv era5Args3 2 [(tpVar, [1])]))
        (normStaticOf exEnv 2) (normForcingsPredictionOf exEnv 2) [(tpVar, [3])]) ∧
    Event.emitMetrics (subDS [(tpVar, [1])]
        (dropVars [toaVar] (groundTruthOf exEnv 2)))
      ∈ stepEventsOf exEnv era5Args3 (PRNGKey 42) 2 exSteadyState) :=
  ⟨⟨by decide, rfl, rfl, rfl⟩,
   C5_steady_step_forecast_and_diff exEnv era5Args3 (PRNGKey 42) 2 exSteadyState
     [(tpVar, [1])] [(tpVar, [2])] [(tpVar, [3])] (by decide) rfl rfl rfl⟩

/-- C3: in `era5` mode, the error field emitted at a bootstrap step is the
ground truth (solar radiation dropped) minus itself, hence identically
zero, and every RMSE statistic computed from it is zero. -/
theorem C3_era5_bootstrap_zero_rmse (env : Env) (args : Args) (rng : RngKey)
    (t : Nat) (s : LoopState) (hera : args.init_data = "era5") (ht : t ≤ 1)
    (hnd : (varsOf (groundTruthOf env t)).Nodup) :
    ∀ d, Event.emitMetrics d ∈ stepEventsOf env args rng t s →
      (∀ p ∈ d, ∀ x ∈ p.2, x = 0) ∧
      ∀ q ∈ calculate_stat_rmse_sq d,
        Real.sqrt ((q.2.1 : ℝ) / (q.2.2 : ℝ)) = 0 := by
  intro d hd
  rw [stepEventsOf, stepBody_boot ht] at hd
  cases hc : s.corrected_pred with
  | none =>
    rw [bootstrapStep_era5_none hera hc] at hd
    simp [Except.toOption] at hd
  | some cpp =>
    rw [bootstrapStep_era5_some hera hc] at hd
    simp only [Except.toOption, Option.map_some', Option.getD_some,
      List.mem_cons, List.not_mem_nil, or_false] at hd
    rcases hd with hd | hd
    · cases hd
    · have hdz : ∀ p ∈ d, ∀ x ∈ p.2, x = 0 := by
        cases hd
        exact subDS_self_zero (varsOf_dropVars_nodup hnd)
      refine ⟨hdz, ?_⟩
      intro q hq
      have hz := calculate_stat_rmse_sq_zero hdz q hq
      rw [hz]
      norm_num

/-- C3 witness: at bootstrap step 1 of the concrete `era5` environment the
emitted error field's 2m-temperature value is zero and its tabulated RMSE
is zero. -/
theorem C3_era5_bootstrap_zero_rmse_witness :
    (era5Args3.init_data = "era5" ∧ (1 : Nat) ≤ 1 ∧
      (varsOf (groundTruthOf exEnv 1)).Nodup) ∧
    (0 : ℤ) = 0 ∧
    Real.sqrt
      ((sumsq ((lookupVar (subDS (dropVars [toaVar] (groundTruthOf exEnv 1))
          (dropVars [toaVar] (groundTruthOf exEnv 1))) t2mVar).getD []) : ℝ) /
       (((lookupVar (subDS (dropVars [toaVar] (groundTruthOf exEnv 1))
          (dropVars [toaVar] (groundTruthOf exEnv 1))) t2mVar).getD
          []).length : ℝ)) = 0 :=
  ⟨⟨rfl, by decide, by decide⟩,
   (C3_era5_bootstrap_zero_rmse exEnv era5Args3 (PRNGKey 42) 1 exBootState rfl
      (by decide) (by decide)
      (subDS (dropVars [toaVar] (groundTruthOf exEnv 1))
        (dropVars [toaVar] (groundTruthOf exEnv 1))) (by decide)).1
     (t2mVar, [0]) (by decide) 0 (by decide),
   (C3_era5_bootstrap_zero_rmse exEnv era5Args3 (PRNGKey 42) 1 exBootState rfl
      (by decide) (by decide)
      (subDS (dropVars [toaVar] (groundTruthOf exEnv 1))
        (dropVars [toaVar] (groundTruthOf exEnv 1))) (by decide)).2
     (t2mVar, sumsq ((lookupVar
        (subDS (dropVars [toaVar] (groundTruthOf exEnv 1))
          (dropVars [toaVar] (groundTruthOf exEnv 1))) t2mVar).getD []),
      ((lookupVar (subDS (dropVars [toaVar] (groundTruthOf exEnv 1))
          (dropVars [toaVar] (groundTruthOf exEnv 1))) t2mVar).getD []).length)
     (by decide)⟩

/-- C4: with a valid bootstrap mode and at least two steps, step index 0
performs no forecaster invocation and computes/emits no RMSE metric; the
first metric emission happens at step index 1 (exactly one). -/
theorem C4_first_step_seeds_only (env : Env) (args : Args)
    (hvalid : args.init_data = "repaint" ∨ args.init_data = "era5")
    (hn : 2 ≤ args.num_autoregressive_steps) :
    countForecasterCalls (eventsAtStep env args 0) = 0 ∧
    countMetricEmissions (eventsAtStep env args 0) = 0 ∧
    countMetricEmissions (eventsAtStep env args 1) = 1 := by
  have key : ∃ s0 e0 s1 e1,
      stepBody env args (PRNGKey args.random_seed) 0 initState = .ok (s0, e0) ∧
      stepBody env args (PRNGKey args.random_seed) 1 s0 = .ok (s1, e1) ∧
      countForecasterCalls e0 = 0 ∧ countMetricEmissions e0 = 0 ∧
      countMetricEmissions e1 = 1 := by
    have hb0 : stepBody env args (PRNGKey args.random_seed) 0 initState =
        bootstrapStep env args (PRNGKey args.random_seed) 0 initState :=
      stepBody_boot (by omega)
    have hb1 : ∀ s : LoopState,
        stepBody env args (PRNGKey args.random_seed) 1 s =
          bootstrapStep env args (PRNGKey args.random_seed) 1 s :=
      fun _ => stepBody_boot (by omega)
    rcases hvalid with h5 | h5
    · refine ⟨_, _, _, _, hb0.trans (bootstrapStep_repaint_none h5 rfl),
        (hb1 _).trans (bootstrapStep_repaint_some h5 rfl), ?_, ?_, ?_⟩
      · simp [countForecasterCalls, repaintEvOf]
      · simp [countMetricEmissions, repaintEvOf]
      · simp [countMetricEmissions, repaintEvOf]
    · refine ⟨_, _, _, _, hb0.trans (bootstrapStep_era5_none h5 rfl),
        (hb1 _).trans (bootstrapStep_era5_some h5 rfl), ?_, ?_, ?_⟩
      · simp [countForecasterCalls]
      · simp [countMetricEmissions]
      · simp [countMetricEmissions]
  obtain ⟨s0, e0, s1, e1, h0, h1, hc0, hm0, hm1⟩ := key
  rcases hn' : args.num_autoregressive_steps with _ | m
  · rw [hn'] at hn
    exact absurd hn (by omega)
  rcases m with _ | n
  · rw [hn'] at hn
    exact absurd hn (by omega)
  have htr : traceOf (autoregressive_assimilation env args) =
      (0, e0) :: (1, e1) ::
        traceOf (runFrom env args (PRNGKey args.random_seed) 2 n s1) := by
    unfold autoregressive_assimilation
    rw [hn', runFrom_ok_step h0, runFrom_ok_step h1]
  have e0eq : eventsAtStep env args 0 = e0 := by
    unfold eventsAtStep
    rw [htr]
    rfl
  have e1eq : eventsAtStep env args 1 = e1 := by
    unfold eventsAtStep
    rw [htr]
    rfl
  rw [e0eq, e1eq]
  exact ⟨hc0, hm0, hm1⟩

/-- C4 witness: the concrete two-step `era5` run. -/
theorem C4_first_step_seeds_only_witness :
    ((era5Args2.init_data = "repaint" ∨ era5Args2.init_data = "era5") ∧
      2 ≤ era5Args2.num_autoregressive_steps) ∧
    (countForecasterCalls (eventsAtStep exEnv era5Args2 0) = 0 ∧
     countMetricEmissions (eventsAtStep exEnv era5Args2 0) = 0 ∧
     countMetricEmissions (eventsAtStep exEnv era5Args2 1) = 1) :=
  ⟨⟨Or.inr rfl, by decide⟩,
   C4_first_step_seeds_only exEnv era5Args2 (Or.inr rfl) (by decide)⟩

/-- Shape of the event list of any completed step: bootstrap steps emit an
optional repaint call followed optionally by one forecaster call (on the
step's own template) and one metric emission; steady-state steps emit the
conditional interpolation-disable followed by exactly one forecaster call
and one metric emission. -/
lemma stepBody_ok_shape {env : Env} {args : Args} {rng : RngKey} {t : Nat}
    {s s' : LoopState} {evs : List Event}
    (h : stepBody env args rng t s = .ok (s', evs)) :
    (t ≤ 1 ∧ ∃ evs0 rest, evs = evs0 ++ rest ∧
       (evs0 = [] ∨ evs0 = [repaintEvOf env args rng t]) ∧
       (rest = [] ∨ ∃ gin d, rest =
         [Event.forecasterCall gin (normStaticOf env t)
            (normForcingsPredictionOf env t) (templateOf env t),
          Event.emitMetrics d])) ∨
    (¬t ≤ 1 ∧ ∃ gin tt d, evs =
       (if t = 2 then [Event.disableInterp] else []) ++
         [Event.forecasterCall gin (normStaticOf env t)
            (normForcingsPredictionOf env t) tt,
          Event.emitMetrics d]) := by
  by_cases ht : t ≤ 1
  · left
    refine ⟨ht, ?_⟩
    rw [stepBody_boot ht] at h
    by_cases h5 : args.init_data = "repaint"
    · cases hc : s.corrected_pred with
      | none =>
        rw [bootstrapStep_repaint_none h5 hc] at h
        simp only [Except.ok.injEq, Prod.mk.injEq] at h
        exact ⟨[repaintEvOf env args rng t], [], by rw [← h.2]; rfl,
          Or.inr rfl, Or.inl rfl⟩
      | some cpp =>
        rw [bootstrapStep_repaint_some h5 hc] at h
        simp only [Except.ok.injEq, Prod.mk.injEq] at h
        obtain ⟨-, hevs⟩ := h
        subst hevs
        exact ⟨[repaintEvOf env args rng t],
          [Event.forecasterCall (concatTime cpp (repaintCorrectedOf env args rng t))
             (normStaticOf env t) (normForcingsPredictionOf env t)
             (templateOf env t),
           Event.emitMetrics (subDS (repaintOutOf env args rng t)
             (dropVars [toaVar] (groundTruthOf env t)))],
          rfl, Or.inr rfl,
          Or.inr ⟨concatTime cpp (repaintCorrectedOf env args rng t),
            subDS (repaintOutOf env args rng t)
              (dropVars [toaVar] (groundTruthOf env t)), rfl⟩⟩
    · by_cases h6 : args.init_data = "era5"
      · cases hc : s.corrected_pred with
        | none =>
          rw [bootstrapStep_era5_none h6 hc] at h
          simp only [Except.ok.injEq, Prod.mk.injEq] at h
          exact ⟨[], [], by rw [← h.2]; rfl, Or.inl rfl, Or.inl rfl⟩
        | some cpp =>
          rw [bootstrapStep_era5_some h6 hc] at h
          simp only [Except.ok.injEq, Prod.mk.injEq] at h
          obtain ⟨-, hevs⟩ := h
          subst hevs
          exact ⟨[],
            [Event.forecasterCall (concatTime cpp (era5CorrectedOf env args t))
               (normStaticOf env t) (normForcingsPredictionOf env t)
               (templateOf env t),
             Event.emitMetrics (subDS (dropVars [toaVar] (groundTruthOf env t))
               (dropVars [toaVar] (groundTruthOf env t)))],
            rfl, Or.inl rfl,
            Or.inr ⟨concatTime cpp (era5CorrectedOf env args t),
              subDS (dropVars [toaVar] (groundTruthOf env t))
                (dropVars [toaVar] (groundTruthOf env t)), rfl⟩⟩
      · rw [bootstrapStep_invalid h5 h6] at h
        cases h
  · right
    refine ⟨ht, ?_⟩
    rw [stepBody_steady ht] at h
    have hsome : (steadyStep env args rng t s).toOption.isSome = true := by
      rw [h]
      rfl
    obtain ⟨ip, ippf, tt, hip, hf, htt⟩ := steadyStep_parts hsome
    rw [steadyStep_ok hip hf htt] at h
    simp only [Except.ok.injEq, Prod.mk.injEq] at h
    exact ⟨_, tt, _, h.2.symm⟩

lemma stepBody_repaint_key {env : Env} {args : Args} {rng : RngKey} {t : Nat}
    {s s' : LoopState} {evs : List Event}
    (h : stepBody env args rng t s = .ok (s', evs)) :
    ∀ m d q f st k, Event.repaintCall m d q f st k ∈ evs → k = foldIn rng t := by
  intro m d q f st k hk
  rcases stepBody_ok_shape h with ⟨ht, evs0, rest, rfl, h0, hr⟩ |
    ⟨ht, gin, tt, dd, rfl⟩
  · rw [List.mem_append] at hk
    rcases hk with hk | hk
    · rcases h0 with rfl | rfl
      · cases hk
      · simp only [repaintEvOf, List.mem_singleton, Event.repaintCall.injEq] at hk
        exact hk.2.2.2.2.2
    · rcases hr with rfl | ⟨gin, dd, rfl⟩
      · cases hk
      · simp at hk
  · by_cases h2 : t = 2 <;> simp [h2] at hk

/-- C8: the run's randomness is fully determined by the seed — every repaint
invocation at step `t` receives exactly the key `fold_in(PRNGKey(seed), t)`;
the whole run is a pure function of the environment and the arguments, so
equal seeds give equal trajectories; and the repaint function itself, being
stateless, returns identical output on identical inputs and key. -/
theorem C8_randomness_determined_by_seed (env : Env) (args : Args) :
    (∀ p ∈ traceOf (autoregressive_assimilation env args),
       ∀ m d q f st k, Event.repaintCall m d q f st k ∈ p.2 →
         k = foldIn (PRNGKey args.random_seed) p.1) ∧
    (∀ env2 args2, env2 = env → args2 = args →
       autoregressive_assimilation env2 args2 =
         autoregressive_assimilation env args) ∧
    (∀ m d q f st k1 k2, k1 = k2 →
       env.repaint m d q f st k1 = env.repaint m d q f st k2) := by
  refine ⟨?_, ?_, ?_⟩
  · intro p hp
    unfold autoregressive_assimilation at hp
    exact runFrom_inv_entries env args (PRNGKey args.random_seed)
      (fun _ _ => True)
      (fun t evs => ∀ m d q f st k,
        Event.repaintCall m d q f st k ∈ evs →
          k = foldIn (PRNGKey args.random_seed) t)
      (fun t s s' evs _ hok => ⟨trivial, stepBody_repaint_key hok⟩)
      args.num_autoregressive_steps 0 initState trivial p hp
  · rintro env2 args2 rfl rfl
    rfl
  · rintro m d q f st k1 k2 rfl
    rfl

/-- C8 witness: in the concrete two-step `repaint` run, the repaint call at
step 0 received exactly the key derived by folding the step index into the
run seed 7. -/
theorem C8_randomness_determined_by_seed_witness :
    ((0, eventsAtStep exEnv repaintArgs2 0) ∈
      traceOf (autoregressive_assimilation exEnv repaintArgs2)) ∧
    [7, 0] = foldIn (PRNGKey repaintArgs2.random_seed) 0 :=
  ⟨by decide,
   (C8_randomness_determined_by_seed exEnv repaintArgs2).1
     (0, eventsAtStep exEnv repaintArgs2 0) (by decide)
     (exEnv.batch 0).mask (normMeasurementsDiffOf exEnv 0 (ipOf exEnv 0))
     (normInputsPredOf exEnv repaintArgs2 (ipOf exEnv 0))
     (normForcingsOf exEnv 0) (normStaticOf exEnv 0) [7, 0] (by decide)⟩

lemma bootstrapStep_ok_state {env : Env} {args : Args} {rng : RngKey}
    {t : Nat} {s s' : LoopState} {evs : List Event}
    (h : bootstrapStep env args rng t s = .ok (s', evs)) :
    (∃ c, s'.corrected_pred = some c) ∧
    (s.corrected_pred = none → s'.targets_template = s.targets_template) ∧
    (s.corrected_pred ≠ none →
      s'.targets_template = some (templateOf env t) ∧
      (∃ ip, s'.inputs_pred = some ip) ∧
      ∃ f, s'.inputs_pred_prev_full = some f) := by
  by_cases h5 : args.init_data = "repaint"
  · cases hc : s.corrected_pred with
    | none =>
      rw [bootstrapStep_repaint_none h5 hc] at h
      simp only [Except.ok.injEq, Prod.mk.injEq] at h
      obtain ⟨hs, -⟩ := h
      subst hs
      exact ⟨⟨_, rfl⟩, fun _ => rfl, fun hne => absurd rfl hne⟩
    | some cpp =>
      rw [bootstrapStep_repaint_some h5 hc] at h
      simp only [Except.ok.injEq, Prod.mk.injEq] at h
      obtain ⟨hs, -⟩ := h
      subst hs
      refine ⟨⟨_, rfl⟩, fun h0 => ?_, fun _ => ⟨rfl, ⟨_, rfl⟩, _, rfl⟩⟩
      cases h0
  · by_cases h6 : args.init_data = "era5"
    · cases hc : s.corrected_pred with
      | none =>
        rw [bootstrapStep_era5_none h6 hc] at h
        simp only [Except.ok.injEq, Prod.mk.injEq] at h
        obtain ⟨hs, -⟩ := h
        subst hs
        exact ⟨⟨_, rfl⟩, fun _ => rfl, fun hne => absurd rfl hne⟩
      | some cpp =>
        rw [bootstrapStep_era5_some h6 hc] at h
        simp only [Except.ok.injEq, Prod.mk.injEq] at h
        obtain ⟨hs, -⟩ := h
        subst hs
        refine ⟨⟨_, rfl⟩, fun h0 => ?_, fun _ => ⟨rfl, ⟨_, rfl⟩, _, rfl⟩⟩
        cases h0
    · rw [bootstrapStep_invalid h5 h6] at h
      cases h

/-- C10: every forecaster invocation at a steady-state step (index `≥ 2`)
uses as its `targets_template` the template built at bootstrap step 1 — the
step-1 ground truth with solar radiation dropped; the template is never
recomputed from any later step's ground truth. -/
theorem C10_template_frozen_after_bootstrap (env : Env) (args : Args) :
    ∀ p ∈ traceOf (autoregressive_assimilation env args), 2 ≤ p.1 →
      ∀ i ns nf tt, Event.forecasterCall i ns nf tt ∈ p.2 →
        tt = templateOf env 1 := by
  intro p hp h2 i ns nf tt hmem
  unfold autoregressive_assimilation at hp
  refine runFrom_inv_entries env args (PRNGKey args.random_seed)
    (fun t s =>
      (t = 1 → ∃ c, s.corrected_pred = some c) ∧
      (2 ≤ t → s.targets_template = some (templateOf env 1)))
    (fun t evs => 2 ≤ t →
      ∀ i ns nf tt, Event.forecasterCall i ns nf tt ∈ evs →
        tt = templateOf env 1)
    ?_ args.num_autoregressive_steps 0 initState
    ⟨fun h1 => absurd h1 (by omega), fun hx => absurd hx (by omega)⟩
    p hp h2 i ns nf tt hmem
  intro t s s' evs hInv hok
  by_cases ht : t ≤ 1
  · rw [stepBody_boot ht] at hok
    obtain ⟨⟨c, hcor⟩, hkeep, hset⟩ := bootstrapStep_ok_state hok
    refine ⟨⟨?_, ?_⟩, ?_⟩
    · exact fun _ => ⟨c, hcor⟩
    · intro hx
      have ht1 : t = 1 := by omega
      subst ht1
      rcases hcs : s.corrected_pred with _ | cpp
      · obtain ⟨c0, hc0⟩ := hInv.1 rfl
        rw [hcs] at hc0
        cases hc0
      · exact (hset (fun hna => by rw [hcs] at hna; cases hna)).1
    · exact fun hx => absurd hx (by omega)
  · have h2t : 2 ≤ t := by omega
    have htpl := hInv.2 h2t
    rw [stepBody_steady ht] at hok
    have hsome : (steadyStep env args (PRNGKey args.random_seed) t s).toOption.isSome = true := by
      rw [hok]
      rfl
    obtain ⟨ip, ippf, tt', hip, hf, htt⟩ := steadyStep_parts hsome
    have htt1 : tt' = templateOf env 1 := by
      rw [htt] at htpl
      exact (Option.some.injEq _ _ ▸ htpl :)
    rw [steadyStep_ok hip hf htt] at hok
    simp only [Except.ok.injEq, Prod.mk.injEq] at hok
    obtain ⟨hs', hevs⟩ := hok
    subst hs'
    subst hevs
    constructor
    · refine ⟨fun h1 => absurd h1 (by omega), fun _ => ?_⟩
      rw [htt1]
    · intro _ i2 ns2 nf2 tt2 hm
      rw [List.mem_append] at hm
      rcases hm with hm | hm
      · by_cases hq : t = 2 <;> simp [hq] at hm
      · rw [List.mem_cons, List.mem_singleton] at hm
        rcases hm with hm | hm
        · cases hm
          exact htt1
        · cases hm

/-- C10 witness: in the concrete three-step `era5` run the forecaster call
at steady-state step 2 uses the step-1 template. -/
theorem C10_template_frozen_after_bootstrap_witness :
    ((2, eventsAtStep exEnv era5Args3 2) ∈
      traceOf (autoregressive_assimilation exEnv era5Args3)) ∧
    [(t2mVar, [1]), (tpVar, [0])] = templateOf exEnv 1 :=
  ⟨by decide,
   C10_template_frozen_after_bootstrap exEnv era5Args3
     (2, eventsAtStep exEnv era5Args3 2) (by decide) (by decide)
     (concatTime (bootFullOf exEnv era5Args3 1)
       (steadyFullOf exEnv era5Args3 2 (templateOf exEnv 1)))
     (normStaticOf exEnv 2) (normForcingsPredictionOf exEnv 2)
     [(t2mVar, [1]), (tpVar, [0])] (by decide)⟩

lemma stepBody_loopInv {env : Env} {args : Args} {rng : RngKey} {t : Nat}
    {s s' : LoopState} {evs : List Event}
    (hok : stepBody env args rng t s = .ok (s', evs)) (hInv : loopInv t s) :
    loopInv (t + 1) s' := by
  by_cases ht : t ≤ 1
  · rw [stepBody_boot ht] at hok
    obtain ⟨⟨c, hcor⟩, hkeep, hset⟩ := bootstrapStep_ok_state hok
    constructor
    · exact fun _ => ⟨c, hcor⟩
    · intro h2
      have ht1 : t = 1 := by omega
      subst ht1
      rcases hcs : s.corrected_pred with _ | cpp
      · obtain ⟨c0, hc0⟩ := hInv.1 rfl
        rw [hcs] at hc0
        cases hc0
      · obtain ⟨htpl, ⟨ip, hip⟩, f, hf⟩ :=
          hset (fun hna => by rw [hcs] at hna; cases hna)
        exact ⟨ip, f, templateOf env 1, hip, hf, htpl⟩
  · have h2t : 2 ≤ t := by omega
    obtain ⟨ip, ippf, tt, hip, hf, htt⟩ := hInv.2 h2t
    rw [stepBody_steady ht, steadyStep_ok hip hf htt] at hok
    simp only [Except.ok.injEq, Prod.mk.injEq] at hok
    obtain ⟨hs', -⟩ := hok
    subst hs'
    exact ⟨fun h1 => absurd h1 (by omega), fun _ => ⟨_, _, _, rfl, rfl, rfl⟩⟩

lemma step_ok_of_valid {env : Env} {args : Args} {rng : RngKey}
    (hvalid : args.init_data = "repaint" ∨ args.init_data = "era5")
    (t : Nat) (s : LoopState) (hInv : loopInv t s) :
    ∃ se, stepBody env args rng t s = .ok se := by
  by_cases ht : t ≤ 1
  · rcases hcs : s.corrected_pred with _ | cpp <;> rcases hvalid with h5 | h5
    · exact ⟨_, by rw [stepBody_boot ht]; exact bootstrapStep_repaint_none h5 hcs⟩
    · exact ⟨_, by rw [stepBody_boot ht]; exact bootstrapStep_era5_none h5 hcs⟩
    · exact ⟨_, by rw [stepBody_boot ht]; exact bootstrapStep_repaint_some h5 hcs⟩
    · exact ⟨_, by rw [stepBody_boot ht]; exact bootstrapStep_era5_some h5 hcs⟩
  · obtain ⟨ip, ippf, tt, hip, hf, htt⟩ := hInv.2 (by omega)
    exact ⟨_, by rw [stepBody_steady ht]; exact steadyStep_ok hip hf htt⟩

/-- In a valid bootstrap mode no iteration raises, so the trace lists the
step indices in order. -/
lemma valid_trace_fst {env : Env} {args : Args} {rng : RngKey}
    (hvalid : args.init_data = "repaint" ∨ args.init_data = "era5") :
    ∀ n t s, loopInv t s →
      (traceOf (runFrom env args rng t n s)).map Prod.fst =
        (List.range n).map (t + ·) := by
  intro n
  induction n with
  | zero => simp [runFrom, traceOf]
  | succ n ih =>
    intro t s hInv
    obtain ⟨se, hse⟩ := @step_ok_of_valid env args rng hvalid t s hInv
    have hse' : stepBody env args rng t s = .ok (se.1, se.2) := by rw [hse]
    rw [runFrom_ok_step hse', List.map_cons,
      ih (t + 1) se.1 (stepBody_loopInv hse' hInv),
      List.range_succ_eq_map, List.map_cons, List.map_map, Nat.add_zero]
    congr 1
    refine List.map_congr_left ?_
    intro i _
    simp only [Function.comp_apply]
    omega

lemma stepBody_disable_count {env : Env} {args : Args} {rng : RngKey}
    {t : Nat} {s s' : LoopState} {evs : List Event}
    (h : stepBody env args rng t s = .ok (s', evs)) :
    countDisableCalls evs = if t = 2 then 1 else 0 := by
  rcases stepBody_ok_shape h with ⟨ht, evs0, rest, rfl, h0, hr⟩ |
    ⟨ht, gin, tt, dd, rfl⟩
  · rw [if_neg (by omega)]
    rcases h0 with rfl | rfl <;> rcases hr with rfl | ⟨gin, dd, rfl⟩ <;>
      simp [countDisableCalls, repaintEvOf]
  · by_cases h2 : t = 2 <;> simp [h2, countDisableCalls]

lemma sum_range_disable (n : Nat) :
    ((List.range n).map (fun t => if t = 2 then (1 : Nat) else 0)).sum =
      if 3 ≤ n then 1 else 0 := by
  induction n with
  | zero => rfl
  | succ n ih =>
    rw [List.range_succ, List.map_append, List.sum_append, ih]
    by_cases h2 : n = 2
    · subst h2
      decide
    · by_cases h3 : 3 ≤ n
      · simp [h2, h3, show 3 ≤ n + 1 by omega]
      · simp [h2, h3, show ¬3 ≤ n + 1 by omega]

/-- C6 (amended): in a valid bootstrap mode, the dataset's interpolation
output is disabled only upon entering step index 2 — never at any other
index — and it is disabled exactly once if and only if the run has at least
three steps (a run of at most two steps never reaches the disable call). -/
theorem C6_disable_interpolation_amended (env : Env) (args : Args)
    (hvalid : args.init_data = "repaint" ∨ args.init_data = "era5") :
    (∀ p ∈ traceOf (autoregressive_assimilation env args),
        Event.disableInterp ∈ p.2 → p.1 = 2) ∧
    countDisable (traceOf (autoregressive_assimilation env args)) =
      if 3 ≤ args.num_autoregressive_steps then 1 else 0 := by
  have hP : ∀ p ∈ traceOf (autoregressive_assimilation env args),
      countDisableCalls p.2 = if p.1 = 2 then 1 else 0 := by
    intro p hp
    unfold autoregressive_assimilation at hp
    exact runFrom_inv_entries env args (PRNGKey args.random_seed)
      (fun _ _ => True)
      (fun t evs => countDisableCalls evs = if t = 2 then 1 else 0)
      (fun t s s' evs _ hok => ⟨trivial, stepBody_disable_count hok⟩)
      args.num_autoregressive_steps 0 initState trivial p hp
  constructor
  · intro p hp hmem
    have hc := hP p hp
    by_cases h2 : p.1 = 2
    · exact h2
    · rw [if_neg h2] at hc
      exfalso
      rw [countDisableCalls, List.countP_eq_zero] at hc
      have := hc _ hmem
      simp at this
  · have hfst : (traceOf (autoregressive_assimilation env args)).map Prod.fst =
        List.range args.num_autoregressive_steps := by
      unfold autoregressive_assimilation
      rw [valid_trace_fst hvalid args.num_autoregressive_steps 0 initState
        ⟨fun h1 => absurd h1 (by omega), fun hx => absurd hx (by omega)⟩]
      refine (List.map_congr_left ?_).trans (List.map_id _)
      intro i _
      simp
    calc countDisable (traceOf (autoregressive_assimilation env args)) =
        ((traceOf (autoregressive_assimilation env args)).map
          (fun p => countDisableCalls p.2)).sum := rfl
      _ = ((traceOf (autoregressive_assimilation env args)).map
          (fun p => if p.1 = 2 then 1 else 0)).sum := by
        rw [List.map_congr_left hP]
      _ = (((traceOf (autoregressive_assimilation env args)).map Prod.fst).map
          (fun t => if t = 2 then 1 else 0)).sum := by
        rw [List.map_map]
        rfl
      _ = ((List.range args.num_autoregressive_steps).map
          (fun t => if t = 2 then 1 else 0)).sum := by rw [hfst]
      _ = if 3 ≤ args.num_autoregressive_steps then 1 else 0 :=
        sum_range_disable args.num_autoregressive_steps

/-- C6 witness: the concrete three-step `era5` run disables interpolation
exactly once, at step index 2. -/
theorem C6_disable_interpolation_amended_witness :
    (era5Args3.init_data = "repaint" ∨ era5Args3.init_data = "era5") ∧
    (2, eventsAtStep exEnv era5Args3 2).1 = 2 ∧
    countDisable (traceOf (autoregressive_assimilation exEnv era5Args3)) =
      if 3 ≤ era5Args3.num_autoregressive_steps then 1 else 0 :=
  ⟨Or.inr rfl,
   (C6_disable_interpolation_amended exEnv era5Args3 (Or.inr rfl)).1
     (2, eventsAtStep exEnv era5Args3 2) (by decide) (by decide),
   (C6_disable_interpolation_amended exEnv era5Args3 (Or.inr rfl)).2⟩

/-- C6 counterexample: a two-step `era5` run never disables the dataset's
interpolation output, so "disabled exactly once across an entire run" fails
as a universal statement. -/
theorem C6_disable_interpolation_counterexample :
    disabledExactlyOnce exEnv era5Args2 = false := by
  decide

/-! Variable-tracking invariants for the precipitation claim. -/

lemma hasVar_mergeDS_left_true {a b : Dataset} {v : Var}
    (ha : hasVar a v = true) : hasVar (mergeDS a b) v = true := by
  rw [hasVar_mergeDS, ha]
  rfl

lemma hasVar_concatTime_left {a b : Dataset} {v : Var}
    (ha : hasVar a v = true) : hasVar (concatTime a b) v = true :=
  (hasVar_concatTime_true_iff a b v).mpr (Or.inl ha)

lemma stepBody_noTP {env : Env} {args : Args} {rng : RngKey} {t : Nat}
    {s s' : LoopState} {evs : List Event}
    (hres : args.resolution = "0.25deg")
    (hok : stepBody env args rng t s = .ok (s', evs)) (hInv : inv025 s) :
    inv025 s' ∧ ∀ i ns nf tt, Event.forecasterCall i ns nf tt ∈ evs →
      hasVar i tpVar = false := by
  have hdrop : ∀ d : Dataset, hasVar (dropTPifHighRes args d) tpVar = false :=
    fun d => hasVar_dropTPifHighRes_of_highRes args d hres
  by_cases ht : t ≤ 1
  · rw [stepBody_boot ht] at hok
    by_cases h5 : args.init_data = "repaint"
    · cases hc : s.corrected_pred with
      | none =>
        rw [bootstrapStep_repaint_none h5 hc] at hok
        simp only [Except.ok.injEq, Prod.mk.injEq] at hok
        obtain ⟨hs', hevs⟩ := hok
        subst hs'
        subst hevs
        refine ⟨⟨?_, ?_⟩, ?_⟩
        · intro d hd
          rw [Option.some.injEq] at hd
          rw [← hd]
          exact hdrop _
        · exact hInv.2
        · intro i ns nf tt hm
          simp [repaintEvOf] at hm
      | some cpp =>
        rw [bootstrapStep_repaint_some h5 hc] at hok
        simp only [Except.ok.injEq, Prod.mk.injEq] at hok
        obtain ⟨hs', hevs⟩ := hok
        subst hs'
        subst hevs
        refine ⟨⟨?_, ?_⟩, ?_⟩
        · intro d hd
          rw [Option.some.injEq] at hd
          rw [← hd]
          exact hdrop _
        · intro d hd
          rw [Option.some.injEq] at hd
          rw [← hd]
          exact hdrop _
        · intro i ns nf tt hm
          simp only [List.mem_cons, List.not_mem_nil, or_false,
            repaintEvOf] at hm
          rcases hm with hm | hm | hm
          · cases hm
          · cases hm
            exact hasVar_concatTime_false (hInv.1 cpp hc) (hdrop _)
          · cases hm
    · by_cases h6 : args.init_data = "era5"
      · cases hc : s.corrected_pred with
        | none =>
          rw [bootstrapStep_era5_none h6 hc] at hok
          simp only [Except.ok.injEq, Prod.mk.injEq] at hok
          obtain ⟨hs', hevs⟩ := hok
          subst hs'
          subst hevs
          refine ⟨⟨?_, hInv.2⟩, ?_⟩
          · intro d hd
            rw [Option.some.injEq] at hd
            rw [← hd]
            exact hdrop _
          · intro i ns nf tt hm
            simp at hm
        | some cpp =>
          rw [bootstrapStep_era5_some h6 hc] at hok
          simp only [Except.ok.injEq, Prod.mk.injEq] at hok
          obtain ⟨hs', hevs⟩ := hok
          subst hs'
          subst hevs
          refine ⟨⟨?_, ?_⟩, ?_⟩
          · intro d hd
            rw [Option.some.injEq] at hd
            rw [← hd]
            exact hdrop _
          · intro d hd
            rw [Option.some.injEq] at hd
            rw [← hd]
            exact hdrop _
          · intro i ns nf tt hm
            simp only [List.mem_cons, List.not_mem_nil, or_false] at hm
            rcases hm with hm | hm
            · cases hm
              exact hasVar_concatTime_false (hInv.1 cpp hc) (hdrop _)
            · cases hm
      · rw [bootstrapStep_invalid h5 h6] at hok
        cases hok
  · rw [stepBody_steady ht] at hok
    have hsome : (steadyStep env args rng t s).toOption.isSome = true := by
      rw [hok]
      rfl
    obtain ⟨ip, ippf, tt', hip, hf, htt⟩ := steadyStep_parts hsome
    rw [steadyStep_ok hip hf htt] at hok
    simp only [Except.ok.injEq, Prod.mk.injEq] at hok
    obtain ⟨hs', hevs⟩ := hok
    subst hs'
    subst hevs
    refine ⟨⟨?_, ?_⟩, ?_⟩
    · intro d hd
      exact hInv.1 d hd
    · intro d hd
      rw [Option.some.injEq] at hd
      rw [← hd]
      exact hdrop _
    · intro i ns nf tt hm
      rw [List.mem_append] at hm
      rcases hm with hm | hm
      · by_cases h2 : t = 2 <;> simp [h2] at hm
      · rw [List.mem_cons, List.mem_singleton] at hm
        rcases hm with hm | hm
        · cases hm
          exact hasVar_concatTime_false (hInv.2 ippf hf) (hdrop _)
        · cases hm

lemma stepBody_hasTP {env : Env} {args : Args} {rng : RngKey} {t : Nat}
    {s s' : LoopState} {evs : List Event}
    (hres : args.resolution = "1deg")
    (hgc : ∀ i ns nf tt, varsOf (env.graphcast i ns nf tt) = varsOf tt)
    (hrp : ∀ m d q f st k, varsOf (env.repaint m d q f st k) = varsOf q)
    (hwb : ∀ u, hasVar (env.batch u).weatherbench tpVar = true)
    (hgb : ∀ u, hasVar (env.batch u).graphcast tpVar = true)
    (hok : stepBody env args rng t s = .ok (s', evs)) (hInv : inv1 s) :
    inv1 s' ∧ ∀ i ns nf tt, Event.forecasterCall i ns nf tt ∈ evs →
      hasVar i tpVar = true := by
  have hgt : ∀ u, hasVar (groundTruthOf env u) tpVar = true := by
    intro u
    rw [groundTruthOf]
    exact (hasVar_dropVars_true_iff _ _ _).mpr ⟨hwb u, by decide⟩
  have htpl : ∀ u, hasVar (templateOf env u) tpVar = true := by
    intro u
    rw [templateOf]
    exact (hasVar_dropVars_true_iff _ _ _).mpr ⟨hgt u, by decide⟩
  have hipOf : ∀ u, hasVar (ipOf env u) tpVar = true := by
    intro u
    rw [ipOf]
    exact (hasVar_dropVars_true_iff _ _ _).mpr ⟨hgb u, by decide⟩
  have hera : ∀ u, hasVar (era5CorrectedOf env args u) tpVar = true := by
    intro u
    rw [era5CorrectedOf, dropTPifHighRes_of_lowRes args _ hres]
    exact hasVar_mergeDS_left_true ((hasVar_dropVars_true_iff _ _ _).mpr
      ⟨hgt u, by decide⟩)
  have hrpc : ∀ k u, hasVar (repaintCorrectedOf env args k u) tpVar = true := by
    intro k u
    rw [repaintCorrectedOf, dropTPifHighRes_of_lowRes args _ hres]
    refine hasVar_mergeDS_left_true ?_
    rw [repaintOutOf, hasVar_congr (hrp _ _ _ _ _ _), normInputsPredOf,
      dropTPifHighRes_of_lowRes args _ hres, hasVar_normDS]
    exact hipOf u
  have hnew : ∀ gin ns2 nf2 (tt2 : Dataset), hasVar tt2 tpVar = true →
      hasVar (env.graphcast gin ns2 nf2 tt2) tpVar = true := by
    intro gin ns2 nf2 tt2 h2
    rw [hasVar_congr (hgc _ _ _ _)]
    exact h2
  have hfull : ∀ (d : Dataset) u, hasVar d tpVar = true →
      hasVar (dropTPifHighRes args (mergeDS d (forcingsPredictionOf env u)))
        tpVar = true := by
    intro d u h2
    rw [dropTPifHighRes_of_lowRes args _ hres]
    exact hasVar_mergeDS_left_true h2
  by_cases ht : t ≤ 1
  · rw [stepBody_boot ht] at hok
    by_cases h5 : args.init_data = "repaint"
    · cases hc : s.corrected_pred with
      | none =>
        rw [bootstrapStep_repaint_none h5 hc] at hok
        simp only [Except.ok.injEq, Prod.mk.injEq] at hok
        obtain ⟨hs', hevs⟩ := hok
        subst hs'
        subst hevs
        refine ⟨⟨?_, ?_, hInv.2.2.1, hInv.2.2.2⟩, ?_⟩
        · intro d hd
          rw [Option.some.injEq] at hd
          rw [← hd]
          exact hrpc rng t
        · intro d hd
          rw [Option.some.injEq] at hd
          rw [← hd]
          exact hipOf t
        · intro i ns nf tt hm
          simp [repaintEvOf] at hm
      | some cpp =>
        rw [bootstrapStep_repaint_some h5 hc] at hok
        simp only [Except.ok.injEq, Prod.mk.injEq] at hok
        obtain ⟨hs', hevs⟩ := hok
        subst hs'
        subst hevs
        refine ⟨⟨?_, ?_, ?_, ?_⟩, ?_⟩
        · intro d hd
          rw [Option.some.injEq] at hd
          rw [← hd]
          exact hrpc rng t
        · intro d hd
          rw [Option.some.injEq] at hd
          rw [← hd]
          exact hnew _ _ _ _ (htpl t)
        · intro d hd
          rw [Option.some.injEq] at hd
          rw [← hd]
          rw [bootFullOf]
          exact hfull _ t (hipOf t)
        · intro d hd
          rw [Option.some.injEq] at hd
          rw [← hd]
          exact htpl t
        · intro i ns nf tt hm
          simp only [List.mem_cons, List.not_mem_nil, or_false,
            repaintEvOf] at hm
          rcases hm with hm | hm | hm
          · cases hm
          · cases hm
            exact hasVar_concatTime_left (hInv.1 cpp hc)
          · cases hm
    · by_cases h6 : args.init_data = "era5"
      · cases hc : s.corrected_pred with
        | none =>
          rw [bootstrapStep_era5_none h6 hc] at hok
          simp only [Except.ok.injEq, Prod.mk.injEq] at hok
          obtain ⟨hs', hevs⟩ := hok
          subst hs'
          subst hevs
          refine ⟨⟨?_, ?_, hInv.2.2.1, hInv.2.2.2⟩, ?_⟩
          · intro d hd
            rw [Option.some.injEq] at hd
            rw [← hd]
            exact hera t
          · intro d hd
            rw [Option.some.injEq] at hd
            rw [← hd]
            exact hipOf t
          · intro i ns nf tt hm
            simp at hm
        | some cpp =>
          rw [bootstrapStep_era5_some h6 hc] at hok
          simp only [Except.ok.injEq, Prod.mk.injEq] at hok
          obtain ⟨hs', hevs⟩ := hok
          subst hs'
          subst hevs
          refine ⟨⟨?_, ?_, ?_, ?_⟩, ?_⟩
          · intro d hd
            rw [Option.some.injEq] at hd
            rw [← hd]
            exact hera t
          · intro d hd
            rw [Option.some.injEq] at hd
            rw [← hd]
            exact hnew _ _ _ _ (htpl t)
          · intro d hd
            rw [Option.some.injEq] at hd
            rw [← hd]
            rw [bootFullOf]
            exact hfull _ t (hipOf t)
          · intro d hd
            rw [Option.some.injEq] at hd
            rw [← hd]
            exact htpl t
          · intro i ns nf tt hm
            simp only [List.mem_cons, List.not_mem_nil, or_false] at hm
            rcases hm with hm | hm
            · cases hm
              exact hasVar_concatTime_left (hInv.1 cpp hc)
            · cases hm
      · rw [bootstrapStep_invalid h5 h6] at hok
        cases hok
  · rw [stepBody_steady ht] at hok
    have hsome : (steadyStep env args rng t s).toOption.isSome = true := by
      rw [hok]
      rfl
    obtain ⟨ip, ippf, tt', hip, hf, htt⟩ := steadyStep_parts hsome
    rw [steadyStep_ok hip hf htt] at hok
    simp only [Except.ok.injEq, Prod.mk.injEq] at hok
    obtain ⟨hs', hevs⟩ := hok
    subst hs'
    subst hevs
    refine ⟨⟨hInv.1, ?_, ?_, ?_⟩, ?_⟩
    · intro d hd
      rw [Option.some.injEq] at hd
      rw [← hd]
      exact hnew _ _ _ _ (hInv.2.2.2 tt' htt)
    · intro d hd
      rw [Option.some.injEq] at hd
      rw [← hd]
      rw [steadyFullOf]
      exact hfull _ t (hInv.2.1 ip hip)
    · intro d hd
      rw [Option.some.injEq] at hd
      rw [← hd]
      exact hInv.2.2.2 tt' htt
    · intro i ns nf tt hm
      rw [List.mem_append] at hm
      rcases hm with hm | hm
      · by_cases h2 : t = 2 <;> simp [h2] at hm
      · rw [List.mem_cons, List.mem_singleton] at hm
        rcases hm with hm | hm
        · cases hm
          exact hasVar_concatTime_left (hInv.2.2.1 ippf hf)
        · cases hm

/-- C1 (amended): given the documented output contracts of the two networks
(the forecaster produces the template's variable set, repaint produces the
predicted state's variable set) and source batches carrying precipitation:
at resolution `"0.25deg"` precipitation never appears in the concatenated
input states passed to the forecaster (the `targets_template`, however, is
the bootstrap ground truth with only solar radiation dropped and retains
precipitation); at `"1deg"` precipitation is present in every concatenated
forecaster input. -/
theorem C1_precipitation_amended (env : Env) (args : Args)
    (hgc : ∀ i ns nf tt, varsOf (env.graphcast i ns nf tt) = varsOf tt)
    (hrp : ∀ m d q f st k, varsOf (env.repaint m d q f st k) = varsOf q)
    (hwb : ∀ u, hasVar (env.batch u).weatherbench tpVar = true)
    (hgb : ∀ u, hasVar (env.batch u).graphcast tpVar = true) :
    ∀ p ∈ traceOf (autoregressive_assimilation env args),
      ∀ i ns nf tt, Event.forecasterCall i ns nf tt ∈ p.2 →
        (args.resolution = "0.25deg" → hasVar i tpVar = false) ∧
        (args.resolution = "1deg" → hasVar i tpVar = true) := by
  intro p hp i ns nf tt hm
  constructor
  · intro hres
    unfold autoregressive_assimilation at hp
    exact runFrom_inv_entries env args (PRNGKey args.random_seed)
      (fun _ s => inv025 s)
      (fun _ evs => ∀ i ns nf tt,
        Event.forecasterCall i ns nf tt ∈ evs → hasVar i tpVar = false)
      (fun t s s' evs hInv hok => stepBody_noTP hres hok hInv)
      args.num_autoregressive_steps 0 initState
      ⟨fun d hd => Option.noConfusion hd, fun d hd => Option.noConfusion hd⟩
      p hp i ns nf tt hm
  · intro hres
    unfold autoregressive_assimilation at hp
    exact runFrom_inv_entries env args (PRNGKey args.random_seed)
      (fun _ s => inv1 s)
      (fun _ evs => ∀ i ns nf tt,
        Event.forecasterCall i ns nf tt ∈ evs → hasVar i tpVar = true)
      (fun t s s' evs hInv hok => stepBody_hasTP hres hgc hrp hwb hgb hok hInv)
      args.num_autoregressive_steps 0 initState
      ⟨fun d hd => Option.noConfusion hd, fun d hd => Option.noConfusion hd,
       fun d hd => Option.noConfusion hd, fun d hd => Option.noConfusion hd⟩
      p hp i ns nf tt hm

/-- C1 witness: in the concrete 0.25-degree two-step `era5` run (whose
environment satisfies the network contracts and whose batches carry
precipitation), the concatenated input states of the bootstrap forecaster
call carry no precipitation. -/
theorem C1_precipitation_amended_witness :
    ((1, eventsAtStep exEnv era5Args025 1) ∈
      traceOf (autoregressive_assimilation exEnv era5Args025)) ∧
    hasVar (concatTime (era5CorrectedOf exEnv era5Args025 0)
      (era5CorrectedOf exEnv era5Args025 1)) tpVar = false :=
  ⟨by decide,
   (C1_precipitation_amended exEnv era5Args025 (fun _ _ _ _ => rfl)
      (fun _ _ _ _ _ _ => rfl) (fun _ => rfl) (fun _ => rfl)
      (1, eventsAtStep exEnv era5Args025 1) (by decide)
      (concatTime (era5CorrectedOf exEnv era5Args025 0)
        (era5CorrectedOf exEnv era5Args025 1))
      (normStaticOf exEnv 1) (normForcingsPredictionOf exEnv 1)
      (templateOf exEnv 1) (by decide)).1 rfl⟩

/-- C1 counterexample: on a concrete 0.25-degree run whose ground truth
carries precipitation, the claim as stated fails — the `targets_template`
passed to the forecaster at bootstrap step 1 still contains
`total_precipitation_6hr`. -/
theorem C1_precipitation_counterexample :
    noTPForecasterTensors
      (traceOf (autoregressive_assimilation exEnv era5Args025)) = false := by
  decide

end DiffDA
